import Mathlib

/-!
# Two-wheeled robot controller (`main_ard/src/main.cpp`): frame codec, scheduler, motion

A shallow embedding of the controller firmware.  C arrays are index-to-value
maps, `uint8_t`/`uint32_t` values are naturals reduced modulo `2^8`/`2^32`
where the source truncates, `int8_t`/`int16_t` values are integers, and the
global records of the source (`tx`, `rx`, `buff`, `plat`, `tmr`, ...) are
structures that the functions take and return.
-/

set_option maxRecDepth 8000
set_option linter.unusedVariables false

namespace Robot

/-! ## Machine integers -/

/-- Conversion of an integer to `uint8_t`. -/
def to_u8 (n : Int) : Nat := (n % 256).toNat

/-- Conversion of an integer to `int8_t` (two's complement). -/
def as_int8 (n : Int) : Int := (n + 128) % 256 - 128

/-- Conversion of an integer to `int16_t` (two's complement); `int` is 16 bits
wide on the ATmega328p, so this is also the result of `int` arithmetic. -/
def as_int16 (n : Int) : Int := (n + 32768) % 65536 - 32768

/-- Subtraction of two `uint32_t` values, as in `millis() - tmr.x`. -/
def sub_u32 (a b : Nat) : Nat := (a % 4294967296 + (4294967296 - b % 4294967296)) % 4294967296

/-- A C array, as the map from an index to the element stored there. -/
abbrev Arr (α : Type) := Nat → α

/-- The assignment `a[i] = v`. -/
def write {α : Type} (a : Arr α) (i : Nat) (v : α) : Arr α :=
  fun j => if j = i then v else a j

/-- The array whose first elements are those of a list (zero elsewhere). -/
def bytes (l : List Nat) : Arr Nat := fun j => l.getD j 0

/-- The elements `a[start], ..., a[end_i - 1]` of an array. -/
def slice {α : Type} (a : Arr α) (start_i end_i : Nat) : List α :=
  (List.range' start_i (end_i - start_i)).map a

/-! ## Byte conversions (`to_int8`, `to_int16`, `from_int8`, `from_int16`) -/

/-- Source function `int8_t to_int8(uint8_t val)`: `return int8_t(val);`. -/
def to_int8 (val : Nat) : Int := as_int8 (val : Int)

/-- Source function `int16_t to_int16(uint8_t val_1, uint8_t val_2, uint8_t *val_i)`:
`return int16_t((val_2 << 8) | val_1);` (`val_i` is not used). -/
def to_int16 (val_1 val_2 : Nat) : Int := as_int16 (((val_2 <<< 8) ||| val_1 : Nat) : Int)

/-- Source function `uint8_t from_int8(int8_t val)`: `return uint8_t(val);`. -/
def from_int8 (val : Int) : Nat := to_u8 val

/-- Source function `void from_int16(int16_t val, uint8_t *int_buff)`:
`int_buff[0] = uint8_t(val); int_buff[1] = uint8_t(val >> 8);`
(the shift of a signed value is arithmetic: the floor of `val / 256`). -/
def from_int16 (val : Int) (int_buff : Arr Nat) : Arr Nat :=
  write (write int_buff 0 (to_u8 val)) 1 (to_u8 (val / 256))

/-! ## Checksum (`hash`) -/

/-- One pass of the loop body of `hash` on the `uint8_t` accumulator:
`ch_sum = (ch_sum << 3) | data[i]; ch_sum = (ch_sum << 4) | data[i];`. -/
def hash_step (ch_sum b : Nat) : Nat :=
  let ch_sum := ((ch_sum <<< 3) ||| b) % 256
  ((ch_sum <<< 4) ||| b) % 256

/-- The loop `for (uint8_t i = ...; i < end_i; i++)` of `hash`, from counter
value `i` and accumulator `ch_sum`.  The counter is 8 bits wide and wraps; the
first argument bounds the number of loop tests, and `none` means that the loop
has not left within that number. -/
def hash_loop (data : Arr Nat) (end_i : Nat) : Nat → Nat → Nat → Option Nat
  | 0, _, _ => none
  | fuel + 1, i, ch_sum =>
    if i < end_i then hash_loop data end_i fuel ((i + 1) % 256) (hash_step ch_sum (data i))
    else some ch_sum

/-- Source function `uint8_t hash(uint8_t *data, uint32_t start_i, uint32_t end_i)`.  The
counter starts at `uint8_t(start_i)`.  A loop that leaves does so within 256
tests (`hash_loop_fuel`), so `none` is returned exactly when the loop never
leaves. -/
def hash (data : Arr Nat) (start_i end_i : Nat) : Option Nat :=
  hash_loop data end_i 257 (start_i % 256) 0

/-- Source function `bool check_data(uint8_t *data_rec, uint32_t start_i, uint32_t end_i)`:
false when the hashes agree. -/
def check_data (data_rec : Arr Nat) (start_i end_i : Nat) : Option Bool := do
  let rec_hash ← hash data_rec start_i end_i
  pure (!(data_rec 0 == rec_hash))

/-- The checksum as the specification words it: the left fold over the payload
bytes, from accumulator 0, of `acc := ((acc << 3) | byte)` truncated to 8 bits
followed by `acc := ((acc << 4) | byte)` truncated to 8 bits. -/
def spec_checksum (payload : List Nat) : Nat :=
  payload.foldl (fun acc byte => (((((acc <<< 3) ||| byte) % 256) <<< 4) ||| byte) % 256) 0

/-! ## Command Record and inbound decoder -/

/-- Source record `struct Receive` with its initialisers: the Command Record `rx`. -/
structure Receive where
  init_sb : Int := 35
  hsum : Nat := 9
  move_type : Int := -1
  val_move : Int := -1
  arm_q1 : Int := 90
  arm_q2 : Int := 90
  arm_q3 : Int := 90
  arm_mode : Int := -1
  auido_mode : Int := -1

/-- Source function `void update_control_data()` on the receive buffer `buff.rx` and the
Command Record `rx`. -/
def update_control_data (buff_rx : Arr Nat) (rx : Receive) : Option Receive := do
  let h ← hash buff_rx 1 11
  let rx := { rx with hsum := h }
  if rx.hsum = buff_rx 0 then
    pure { rx with
      move_type := to_int8 (buff_rx 1)
      val_move := to_int8 (buff_rx 2)
      arm_q1 := to_int16 (buff_rx 3) (buff_rx 4)
      arm_q2 := to_int16 (buff_rx 5) (buff_rx 6)
      arm_q3 := to_int16 (buff_rx 7) (buff_rx 8)
      arm_mode := to_int8 (buff_rx 9)
      auido_mode := to_int8 (buff_rx 10) }
  else
    pure { rx with move_type := -1, val_move := -1, auido_mode := -1 }

/-- The value of a byte read as a signed 8-bit number. -/
def spec_int8 (b : Nat) : Int := if b < 128 then (b : Int) else (b : Int) - 256

/-- The value of the byte pair `(lo, hi)` read as a signed 16-bit little-endian
number. -/
def spec_int16_le (lo hi : Nat) : Int :=
  if lo + 256 * hi < 32768 then ((lo + 256 * hi : Nat) : Int) else ((lo + 256 * hi : Nat) : Int) - 65536

/-! ## Global records -/

/-- Source record `struct Timer` (`tmr`): the last-fire timestamps of the schedule table. -/
structure Timer where
  main : Nat := 0
  tx : Nat := 0
  rx : Nat := 0
  nrf_t : Nat := 0
  nrf_r : Nat := 0
  set_wheel : Nat := 0
  set_arm : Nat := 0
  set_periph : Nat := 0
  check_mltx : Nat := 0
  check_lidar : Nat := 0
  check_imu : Nat := 0
  check_odo : Nat := 0
  check_nrf : Nat := 0

/-- Source record `struct Period` (`PRD`): the periods of the schedule table, in ms. -/
structure Period where
  main : Nat := 0
  tx : Nat := 48
  rx : Nat := 49
  nrf_t : Nat := 5
  nrf_r : Nat := 5
  set_wheel : Nat := 33
  set_arm : Nat := 5
  set_periph : Nat := 5
  check_mltx : Nat := 15
  check_lidar : Nat := 5
  check_imu : Nat := 15
  check_odo : Nat := 5
  check_nrf : Nat := 100

/-- The global `Period PRD;`. -/
def PRD : Period := {}

/-- Source record `struct Rec_nrf` (`rec_nrf`): the joystick record of the remote. -/
structure Rec_nrf where
  data : Arr Int := fun _ => 0
  pipeNo : Nat := 0
  x1 : Int := 512
  y1 : Int := 512
  x2 : Int := 512
  y2 : Int := 512
  btn1 : Nat := 0
  btn2 : Nat := 0

/-- Source record `struct Transmit` with its initialisers: the Telemetry Record `tx`. -/
structure Transmit where
  start_sb : Int := 37
  hsum : Nat := 9
  left_wh : Int := 5
  right_wh : Int := 256
  mode_move : Int := 9
  x_arm : Int := 256
  y_arm : Int := -1
  z_arm : Int := -1
  mode_arm : Int := -1
  ax : Int := -123
  ay : Int := -1234
  az : Int := -12345
  gx : Int := -123
  gy : Int := -1234
  gz : Int := -12345
  ang_x : Int := -123
  ang_y : Int := -1234
  ang_z : Int := -12345
  odo_l : Int := 1
  odo_r : Int := 2
  lidar_angle : Int := 3
  lidar_dist : Int := 4
  sonar_1 : Int := 5
  sonar_2 : Int := 6
  ir : Int := 3
  end_sens : Int := 15

/-- Source record `struct Buff` (`buff`): the byte buffers, zero at boot. -/
structure Buff where
  rx : Arr Nat := fun _ => 0
  two_bytes : Arr Nat := fun _ => 0
  tx : Arr Nat := fun _ => 0
  tx_add : Arr Nat := fun _ => 0
  nrf_rec : Arr Nat := fun _ => 0

/-- Source record `struct Pid`. -/
structure Pid where
  p : Int := 1000
  i : Int := 100
  d : Int := 10
  prev_er : Int := 0
  integral : Int := 0
  constr : Arr Int := fun j => [100, 1000].getD j 0

/-- Source record `struct Platform` with its initialisers: the Motion State `plat`. -/
structure Platform where
  loc_init_ang : Arr Int := fun _ => 0
  target_type : Int := 0
  target_val : Int := 0
  is_done_move : Bool := false
  tmr : Arr Nat := fun _ => 0
  prd : Arr Nat := fun j => [500, 500, 500, 3600000, 3600000].getD j 0
  stop : Arr Int := fun _ => 0
  forw : Arr Int := fun j => [100, -100].getD j 0
  backw : Arr Int := fun j => [-100, 100].getD j 0
  pid : Pid := {}

/-- The periodic tasks that `loop()` guards inside one kernel pass. -/
inductive TaskId where
  | nrf_r | check_imu | check_mltx | check_lidar | check_odo
  | tx | rx | set_wheel | set_arm | set_periph
  deriving DecidableEq, Repr

/-- The last-fire timestamp `tmr.<task>`. -/
def Timer.get (t : Timer) : TaskId → Nat
  | .nrf_r => t.nrf_r
  | .check_imu => t.check_imu
  | .check_mltx => t.check_mltx
  | .check_lidar => t.check_lidar
  | .check_odo => t.check_odo
  | .tx => t.tx
  | .rx => t.rx
  | .set_wheel => t.set_wheel
  | .set_arm => t.set_arm
  | .set_periph => t.set_periph

/-- The assignment `tmr.<task> = v`. -/
def Timer.set (t : Timer) (k : TaskId) (v : Nat) : Timer :=
  match k with
  | .nrf_r => { t with nrf_r := v }
  | .check_imu => { t with check_imu := v }
  | .check_mltx => { t with check_mltx := v }
  | .check_lidar => { t with check_lidar := v }
  | .check_odo => { t with check_odo := v }
  | .tx => { t with tx := v }
  | .rx => { t with rx := v }
  | .set_wheel => { t with set_wheel := v }
  | .set_arm => { t with set_arm := v }
  | .set_periph => { t with set_periph := v }

/-- The period `PRD.<task>`. -/
def Period.get (p : Period) : TaskId → Nat
  | .nrf_r => p.nrf_r
  | .check_imu => p.check_imu
  | .check_mltx => p.check_mltx
  | .check_lidar => p.check_lidar
  | .check_odo => p.check_odo
  | .tx => p.tx
  | .rx => p.rx
  | .set_wheel => p.set_wheel
  | .set_arm => p.set_arm
  | .set_periph => p.set_periph

/-- The globals of the program, at their boot values, together with a record
of what the program has emitted: the bytes written to the serial port
(`serial_out`), the payloads handed to the transceiver (`nrf_out`), the
arguments of the calls of `set_PWM_wheel` (`wheel`), the receive buffers on
which `update_control_data` has run (`decoded`) and the task bodies that have
run (`ran`). -/
structure State where
  tmr : Timer := {}
  rec_nrf : Rec_nrf := {}
  tx : Transmit := {}
  rx : Receive := {}
  buff : Buff := {}
  rx_flag : Bool := false
  rx_i : Nat := 0
  plat : Platform := {}
  serial_out : List Nat := []
  nrf_out : List (List Nat) := []
  wheel : List (Int × Int) := []
  decoded : List (List Nat) := []
  ran : List TaskId := []

/-- What the outside world presents during one kernel pass. `millis k n` is
the value of the `n`-th call of `millis()` made in the block of task `k`
(call 0 is the due test, call 1 the store to `tmr`, the later ones are made by
the body); `millis_main` is the same for the outer block of `loop()`.
`serial` is the byte waiting on the serial port, if any; `imu` the
yaw/pitch/roll triple `ypr[k] * 1000` of a new DMP packet, as `int16_t`, if
any; `mltx` the successive values of `digitalRead(pin.mltx.sig)`; `nrf_ack`
the payloads waiting in the transceiver after a write; `nrf_joy` the pipe
number and joystick sample waiting in the transceiver, if any. -/
structure Env where
  millis_main : Nat → Nat := fun _ => 0
  millis : TaskId → Nat → Nat := fun _ _ => 0
  serial : Option Nat := none
  imu : Option (Arr Int) := none
  mltx : Nat → Nat := fun _ => 0
  nrf_ack : List (Arr Nat) := []
  nrf_joy : Option (Nat × Arr Int) := none

/-! ## Outbound frame (`setup`, `fill_tx_arr`, `tx_uart`) -/

/-- The part of `void setup()` that touches the globals:
`buff.tx[0] = uint8_t(tx.start_sb);` (the rest configures the peripherals and
prints the clock frequency, neither of which is modelled). -/
def setup (s : State) : State :=
  { s with buff := { s.buff with tx := write s.buff.tx 0 (to_u8 s.tx.start_sb) } }

/-- Source function `void buff_to_tx_buff(uint8_t *ind, uint8_t *int_buff)`:
`buff.tx[(*ind)++] = int_buff[0]; buff.tx[(*ind)++] = int_buff[1];`.
Returns the new value of `*ind`. -/
def buff_to_tx_buff (ind : Nat) (int_buff : Arr Nat) (buff : Buff) : Nat × Buff :=
  let buff := { buff with tx := write buff.tx ind (int_buff 0) }
  let ind := (ind + 1) % 256
  let buff := { buff with tx := write buff.tx ind (int_buff 1) }
  ((ind + 1) % 256, buff)

/-- The statement pair `from_int16(val, buff.two_bytes);
buff_to_tx_buff(&i, buff.two_bytes);` of `fill_tx_arr`, on the index `i` and
the buffers. -/
def put_int16 (val : Int) (st : Nat × Buff) : Nat × Buff :=
  let buff := { st.2 with two_bytes := from_int16 val st.2.two_bytes }
  buff_to_tx_buff st.1 buff.two_bytes buff

/-- Source function `void fill_tx_arr()`. -/
def fill_tx_arr (tx : Transmit) (buff : Buff) : Buff :=
  let st : Nat × Buff := (2, buff)
  -- move
  let st := put_int16 tx.left_wh st
  let st := put_int16 tx.right_wh st
  let st := put_int16 tx.mode_move st
  -- arm
  let st := put_int16 tx.x_arm st
  let st := put_int16 tx.y_arm st
  let st := put_int16 tx.z_arm st
  let st := put_int16 tx.mode_arm st
  -- accel
  let st := put_int16 tx.ax st
  let st := put_int16 tx.ay st
  let st := put_int16 tx.az st
  -- gyro
  let st := put_int16 tx.gx st
  let st := put_int16 tx.gy st
  let st := put_int16 tx.gz st
  -- ang
  let st := put_int16 tx.ang_x st
  let st := put_int16 tx.ang_y st
  let st := put_int16 tx.ang_z st
  -- odo
  let st := put_int16 tx.odo_l st
  let st := put_int16 tx.odo_r st
  -- lidar
  let st := put_int16 tx.lidar_angle st
  let st := put_int16 tx.lidar_dist st
  -- sonar
  let st := put_int16 tx.sonar_1 st
  let st := put_int16 tx.sonar_2 st
  -- IR sensors and limit switches
  let i := st.1
  let buff := st.2
  let buff := { buff with tx := write buff.tx i (from_int8 tx.ir) }
  let i := (i + 1) % 256
  let buff := { buff with tx := write buff.tx i (from_int8 tx.end_sens) }
  -- hash sum
  { buff with tx := write buff.tx 1 tx.hsum }

/-- Source function `void send_buff(uint8_t *buff, uint8_t size)`: writes `buff[0..size-1]` to
the serial port. -/
def send_buff (buff : Arr Nat) (size : Nat) (s : State) : State :=
  { s with serial_out := s.serial_out ++ slice buff 0 size }

/-- One pass of the `while (radio.available())` loop of `tx_uart`:
`radio.read(&buff.nrf_rec, 12);` then
`for (i = 0; i < 11; i++) buff.rx[0] = buff.nrf_rec[i+1];`. -/
def tx_uart_read (s : State) (payload : Arr Nat) : State :=
  let nrf_rec := (List.range 12).foldl (fun a j => write a j (payload j)) s.buff.nrf_rec
  let rx := (List.range 11).foldl (fun a j => write a 0 (nrf_rec (j + 1))) s.buff.rx
  { s with buff := { s.buff with nrf_rec := nrf_rec, rx := rx } }

/-- Source function `void tx_uart()`. -/
def tx_uart (MODE : Nat) (nrf_ack : List (Arr Nat)) (s : State) : State :=
  if MODE = 1 then
    send_buff s.buff.tx 48 s
  else if MODE = 2 then
    let tx_add := (List.range 16).foldl (fun a j => write a j (s.buff.tx (32 + j))) s.buff.tx_add
    let s := { s with buff := { s.buff with tx_add := tx_add } }
    let s := { s with nrf_out := s.nrf_out ++ [slice s.buff.tx 0 32, slice s.buff.tx_add 0 16] }
    nrf_ack.foldl tx_uart_read s
  else s

/-! ## Inbound receiver (`rx_uart`) -/

/-- Source function `void rx_uart()`; `serial` is the byte that `Serial.read()` returns, or
`none` when `Serial.available()` is zero.  `rx_i` is the function's
`static uint8_t i`. -/
def rx_uart (MODE : Nat) (serial : Option Nat) (s : State) : Option State :=
  if MODE = 1 then
    match serial with
    | none => some s
    | some byte =>
      if s.rx_flag then
        let s := { s with buff := { s.buff with rx := write s.buff.rx s.rx_i byte } }
        let s := { s with rx_i := (s.rx_i + 1) % 256 }
        if s.rx_i > 10 then do
          let s := { s with rx_flag := false, rx_i := 0 }
          let rx ← update_control_data s.buff.rx s.rx
          pure { s with rx := rx, decoded := s.decoded ++ [slice s.buff.rx 0 11] }
        else some s
      else
        if as_int8 byte = s.rx.init_sb then some { s with rx_flag := true, rx_i := 0 }
        else some s
  else if MODE = 2 then some s
  else some s

/-- The receiver fed a byte stream, one byte per call of `rx_uart` (serial
link, `MODE == 1`). -/
def rx_feed (s : State) : List Nat → Option State
  | [] => some s
  | byte :: rest => (rx_uart 1 (some byte) s).bind (fun s => rx_feed s rest)

/-! ## Remote receive, sensors -/

/-- Source function `void rc_nrf()`; `ms n` is the value of its `n`-th call of `millis()`. -/
def rc_nrf (nrf_joy : Option (Nat × Arr Int)) (ms : Nat → Nat) (s : State) : State :=
  if sub_u32 (ms 0) s.tmr.check_nrf > PRD.check_nrf then
    let r := { s.rec_nrf with x1 := 512, y1 := 512, x2 := 512, y2 := 512 }
    { s with rec_nrf := { r with btn1 := 0, btn2 := 0 } }
  else
    match nrf_joy with
    | some (pipeNo, data) =>
      let s := { s with tmr := { s.tmr with check_nrf := ms 1 } }
      let r := { s.rec_nrf with pipeNo := pipeNo, data := data }
      let r := { r with x1 := data 0, y1 := data 1, x2 := data 2, y2 := data 3 }
      { s with rec_nrf := { r with btn1 := to_u8 (data 4), btn2 := to_u8 (data 5) } }
    | none => s

/-- Source function `void get_imu()`: with a new packet, `tx.ang_x = ypr[2] * 1000;
tx.ang_y = ypr[1] * 1000; tx.ang_z = ypr[0] * 1000;`. -/
def get_imu (imu : Option (Arr Int)) (s : State) : State :=
  match imu with
  | some ypr => { s with tx := { s.tx with ang_x := ypr 2, ang_y := ypr 1, ang_z := ypr 0 } }
  | none => s

/-- Source function `void get_mltx()`: the two IR bits, then the four limit-switch bits, each
`field = field | (digitalRead(pin.mltx.sig) << i)` from zero. -/
def get_mltx (mltx : Nat → Nat) (s : State) : State :=
  let ir := (List.range 2).foldl (fun acc j => acc ||| (mltx j <<< j)) 0
  let end_sens := (List.range 4).foldl (fun acc j => acc ||| (mltx (2 + j) <<< j)) 0
  { s with tx := { s.tx with ir := as_int8 (ir : Nat), end_sens := as_int8 (end_sens : Nat) } }

/-! ## Motion state machine (the `set_wheel` task body) -/

/-- Source function `void set_PWM_wheel(int16_t *left_sp, int16_t *right_sp)`: the body is
empty in the source; the requested pair is recorded. -/
def set_PWM_wheel (left_sp right_sp : Int) (s : State) : State :=
  { s with wheel := s.wheel ++ [(left_sp, right_sp)] }

/-- The exit of a move: `plat.is_done_move = true; tx.mode_move = 1;`. -/
def move_done (s : State) : State :=
  { s with plat := { s.plat with is_done_move := true }, tx := { s.tx with mode_move := 1 } }

/-- The body of the `set_wheel` block of `loop()` (after `tmr.set_wheel =
millis()`); `ms n` is the value of the `n`-th call of `millis()` made by the
body.  Differences of `int16_t` values are `int` differences. -/
def set_wheel_body (ms : Nat → Nat) (s : State) : State :=
  if s.plat.is_done_move then
    let plat := { s.plat with target_type := s.rx.move_type, target_val := s.rx.val_move }
    let plat := { plat with loc_init_ang := write plat.loc_init_ang 2 s.tx.ang_z }
    let plat := { plat with tmr := (List.range 5).foldl (fun t j => write t j (ms j)) plat.tmr }
    let plat := { plat with is_done_move := false }
    { s with plat := plat, tx := { s.tx with mode_move := 0 } }
  else if s.plat.target_type = 0 then
    let s := set_PWM_wheel (s.plat.stop 0) (s.plat.stop 1) s
    if sub_u32 (ms 0) (s.plat.tmr s.plat.target_type.toNat) > s.plat.prd s.plat.target_type.toNat
    then move_done s else s
  else if s.plat.target_type = 1 then
    if sub_u32 (ms 0) (s.plat.tmr s.plat.target_type.toNat) > s.plat.prd s.plat.target_type.toNat
    then move_done s else s
  else if s.plat.target_type = 2 then
    if sub_u32 (ms 0) (s.plat.tmr s.plat.target_type.toNat) > s.plat.prd s.plat.target_type.toNat
    then move_done s else s
  else if s.plat.target_type = 3 then
    if s.plat.target_val > 0 then
      let s := set_PWM_wheel (s.plat.backw 0) (s.plat.forw 1) s
      if as_int16 (s.tx.ang_z - s.plat.loc_init_ang 2) > s.plat.target_val
      then move_done s else s
    else
      let s := set_PWM_wheel (s.plat.forw 0) (s.plat.backw 1) s
      if as_int16 (s.tx.ang_z - s.plat.loc_init_ang 2) < s.plat.target_val
      then move_done s else s
  else if s.plat.target_type = 4 then
    if s.plat.target_val > 0 then
      let s := set_PWM_wheel (s.plat.stop 0) (s.plat.forw 1) s
      if as_int16 (s.tx.ang_z - s.plat.loc_init_ang 2) > s.plat.target_val
      then move_done s else s
    else
      let s := set_PWM_wheel (s.plat.forw 0) (s.plat.stop 1) s
      if as_int16 (s.tx.ang_z - s.plat.loc_init_ang 2) < s.plat.target_val
      then move_done s else s
  else s

/-! ## Scheduler (`loop`) -/

/-- The body of the block that `loop()` guards for a task. -/
def task_body (MODE : Nat) (e : Env) : TaskId → State → Option State
  | .nrf_r => fun s => some (rc_nrf e.nrf_joy (fun n => e.millis .nrf_r (n + 2)) s)
  | .check_imu => fun s => some (get_imu e.imu s)
  | .check_mltx => fun s => some (get_mltx e.mltx s)
  | .check_lidar => fun s => some s
  | .check_odo => fun s => some s
  | .tx => fun s => some (tx_uart MODE e.nrf_ack { s with buff := fill_tx_arr s.tx s.buff })
  | .rx => fun s => rx_uart MODE e.serial s
  | .set_wheel => fun s => some (set_wheel_body (fun n => e.millis .set_wheel (n + 2)) s)
  | .set_arm => fun s => some s
  | .set_periph => fun s => some s

/-- One guarded block of `loop()`:
`if (millis() - tmr.k > PRD.k) { tmr.k = millis(); body }`. -/
def run_task (MODE : Nat) (e : Env) (k : TaskId) (s : State) : Option State :=
  if sub_u32 (e.millis k 0) (s.tmr.get k) > PRD.get k then
    task_body MODE e k { s with tmr := s.tmr.set k (e.millis k 1), ran := s.ran ++ [k] }
  else some s

/-- Source function `void loop()`: one kernel pass. -/
def loop (MODE : Nat) (e : Env) (s : State) : Option State :=
  if sub_u32 (e.millis_main 0) s.tmr.main > PRD.main then
    let s := { s with tmr := { s.tmr with main := e.millis_main 1 } }
    if MODE = 0 then
      run_task MODE e .nrf_r s
    else if MODE > 0 then do
      let s ← run_task MODE e .check_imu s
      let s ← run_task MODE e .check_mltx s
      let s ← run_task MODE e .check_lidar s
      let s ← run_task MODE e .check_odo s
      let s ← run_task MODE e .tx s
      let s ← run_task MODE e .rx s
      let s ← run_task MODE e .set_wheel s
      let s ← run_task MODE e .set_arm s
      run_task MODE e .set_periph s
    else some s
  else some s

/-! ## Layout of the outbound frame, in the words of the specification -/

/-- The 22 two-byte fields of the Telemetry Record, in frame order. -/
def spec_fields (tx : Transmit) : List Int :=
  [tx.left_wh, tx.right_wh, tx.mode_move, tx.x_arm, tx.y_arm, tx.z_arm, tx.mode_arm,
   tx.ax, tx.ay, tx.az, tx.gx, tx.gy, tx.gz, tx.ang_x, tx.ang_y, tx.ang_z,
   tx.odo_l, tx.odo_r, tx.lidar_angle, tx.lidar_dist, tx.sonar_1, tx.sonar_2]

/-- The 16-bit two's complement code of an integer. -/
def spec_twos16 (v : Int) : Nat := (v % 65536).toNat

/-- The 8-bit two's complement code of an integer. -/
def spec_twos8 (v : Int) : Nat := (v % 256).toNat

/-- The array after the elements of a list have been stored at the indices
`i, i + 1, ...`, one after the other. -/
def write_from (a : Arr Nat) (i : Nat) : List Nat → Arr Nat
  | [] => a
  | b :: l => write_from (write a i b) (i + 1) l

/-! ## Runs of the program -/

/-- The program after `setup()`: `loop()` called once for each element of a
list of what the outside world presents, in order. -/
def run (MODE : Nat) (s : State) : List Env → Option State
  | [] => some s
  | e :: es => (loop MODE e s).bind (fun s => run MODE s es)

/-- The checksum of a range of two bytes or more, in the words of the claim on
its collisions: a function of the last byte `b` and of the lowest bit of the
byte `p` before it, `((((p & 1) << 3) | (b & 0x0F)) << 4 | b) mod 256`. -/
def spec_hash_tail (p b : Nat) : Nat :=
  (((((p &&& 1) <<< 3) ||| (b &&& 0x0F)) <<< 4) ||| b) % 256

/-- Successive calls of `rc_nrf`, each with what the transceiver holds and
with the values of its calls of `millis()`. -/
def rc_nrf_calls (s : State) : List (Option (Nat × Arr Int) × (Nat → Nat)) → State
  | [] => s
  | c :: rest => rc_nrf_calls (rc_nrf c.1 c.2 s) rest

/-- Successive motion steps, one at each clock reading of a list (every call
of `millis()` in a step returns the reading of the step); nothing else runs in
between, so the Command Record is never updated. -/
def motion_steps (s : State) : List Nat → State
  | [] => s
  | now :: rest => motion_steps (set_wheel_body (fun _ => now) s) rest

/-! ## Lemmas on the checksum loop -/

theorem hash_step_eq_spec (acc b : Nat) :
    hash_step acc b = (((((acc <<< 3) ||| b) % 256) <<< 4) ||| b) % 256 := rfl

theorem hash_step_lt (acc b : Nat) : hash_step acc b < 256 := by
  unfold hash_step
  exact Nat.mod_lt _ (by decide)

theorem foldl_hash_step_lt (l : List Nat) (acc : Nat) (h : acc < 256) :
    l.foldl hash_step acc < 256 := by
  induction l generalizing acc with
  | nil => simpa using h
  | cons b l ih => exact ih _ (hash_step_lt acc b)

/-- A loop whose bound is at most 255 leaves after `end_i - i` passes with the
fold of the bytes it has read. -/
theorem hash_loop_fold (data : Arr Nat) (end_i : Nat) (hend : end_i ≤ 255) :
    ∀ (n fuel i ch_sum : Nat), i + n = end_i → n < fuel →
      hash_loop data end_i fuel i ch_sum = some ((slice data i end_i).foldl hash_step ch_sum) := by
  intro n
  induction n with
  | zero =>
    intro fuel i ch_sum hi hf
    obtain ⟨f, rfl⟩ : ∃ f, fuel = f + 1 := ⟨fuel - 1, by omega⟩
    have : ¬ i < end_i := by omega
    simp [hash_loop, this, slice, show end_i - i = 0 by omega]
  | succ n ih =>
    intro fuel i ch_sum hi hf
    obtain ⟨f, rfl⟩ : ∃ f, fuel = f + 1 := ⟨fuel - 1, by omega⟩
    have hlt : i < end_i := by omega
    have hmod : (i + 1) % 256 = i + 1 := Nat.mod_eq_of_lt (by omega)
    have hs : slice data i end_i = data i :: slice data (i + 1) end_i := by
      unfold slice
      rw [show end_i - i = (end_i - (i + 1)) + 1 by omega, List.range'_succ]
      simp
    simp only [hash_loop, hlt, if_true, hmod]
    rw [ih f (i + 1) (hash_step ch_sum (data i)) (by omega) (by omega), hs]
    simp

/-- A loop whose counter is past the bound leaves at once. -/
theorem hash_loop_past (data : Arr Nat) (end_i fuel i ch_sum : Nat) (h : end_i ≤ i) :
    hash_loop data end_i (fuel + 1) i ch_sum = some ch_sum := by
  have : ¬ i < end_i := by omega
  simp [hash_loop, this]

/-- A loop whose bound is above 255 never leaves: the 8-bit counter cannot
reach the bound. -/
theorem hash_loop_diverges (data : Arr Nat) (end_i : Nat) (hend : 256 ≤ end_i) :
    ∀ (fuel i ch_sum : Nat), i < 256 → hash_loop data end_i fuel i ch_sum = none := by
  intro fuel
  induction fuel with
  | zero => intro i ch_sum _; rfl
  | succ f ih =>
    intro i ch_sum hi
    have hlt : i < end_i := by omega
    simp only [hash_loop, hlt, if_true]
    exact ih _ _ (Nat.mod_lt _ (by decide))

/-- The bound 257 on the loop tests in `hash` loses nothing: any larger bound
gives the same result. -/
theorem hash_loop_fuel (data : Arr Nat) (end_i fuel i ch_sum : Nat) (hf : 257 ≤ fuel)
    (hi : i < 256) :
    hash_loop data end_i fuel i ch_sum = hash_loop data end_i 257 i ch_sum := by
  rcases Nat.lt_or_ge end_i 256 with hend | hend
  · rcases Nat.lt_or_ge end_i i with h | h
    · obtain ⟨f, rfl⟩ : ∃ f, fuel = f + 1 := ⟨fuel - 1, by omega⟩
      rw [hash_loop_past data end_i f i ch_sum (by omega),
        hash_loop_past data end_i 256 i ch_sum (by omega)]
    · rw [hash_loop_fold data end_i (by omega) (end_i - i) fuel i ch_sum (by omega) (by omega),
        hash_loop_fold data end_i (by omega) (end_i - i) 257 i ch_sum (by omega) (by omega)]
  · rw [hash_loop_diverges data end_i hend fuel i ch_sum hi,
      hash_loop_diverges data end_i hend 257 i ch_sum hi]

/-- For bounds up to 255, `hash` returns the fold of the bytes of the range. -/
theorem hash_eq_fold (data : Arr Nat) (start_i end_i : Nat) (hs : start_i ≤ 255)
    (hend : end_i ≤ 255) :
    hash data start_i end_i = some ((slice data start_i end_i).foldl hash_step 0) := by
  unfold hash
  rw [Nat.mod_eq_of_lt (by omega : start_i < 256)]
  rcases Nat.lt_or_ge end_i start_i with h | h
  · rw [hash_loop_past data end_i 256 start_i 0 (by omega)]
    simp [slice, show end_i - start_i = 0 by omega]
  · exact hash_loop_fold data end_i hend (end_i - start_i) 257 start_i 0 (by omega) (by omega)

theorem spec_checksum_eq (l : List Nat) : spec_checksum l = l.foldl hash_step 0 := rfl

theorem slice_congr {α : Type} (a b : Arr α) (start_i end_i : Nat)
    (h : ∀ j, start_i ≤ j → j < end_i → a j = b j) : slice a start_i end_i = slice b start_i end_i := by
  unfold slice
  apply List.map_congr_left
  intro j hj
  rw [List.mem_range'_1] at hj
  exact h j hj.1 (by omega)

theorem to_int8_eq_spec (b : Nat) (h : b < 256) : to_int8 b = spec_int8 b := by
  unfold to_int8 as_int8 spec_int8
  split <;> omega

theorem shl8_or (lo hi : Nat) (h : lo < 256) : (hi <<< 8) ||| lo = 256 * hi + lo := by
  rw [Nat.shiftLeft_eq, Nat.mul_comm]
  exact (Nat.mul_add_lt_is_or (show lo < 2 ^ 8 from h) hi).symm

theorem to_int16_eq_spec (lo hi : Nat) (hlo : lo < 256) (hhi : hi < 256) :
    to_int16 lo hi = spec_int16_le lo hi := by
  unfold to_int16 as_int16 spec_int16_le
  rw [shl8_or lo hi hlo]
  split <;> omega

/-- The call `hash(buff.rx, 1, 11)` always returns: the checksum of the ten bytes after
the checksum byte. -/
theorem hash_rx (buff_rx : Arr Nat) :
    hash buff_rx 1 11 = some (spec_checksum (slice buff_rx 1 11)) := by
  rw [spec_checksum_eq]
  exact hash_eq_fold buff_rx 1 11 (by decide) (by decide)

/-! ## C7: definition of the checksum -/

/-- C7 as stated fails: on the range `[0, 256)` the 8-bit loop counter of
`hash` never reaches the bound, so `hash` returns no checksum at all. -/
theorem hash_range_256_diverges : hash (fun _ => 1) 0 256 = none :=
  hash_loop_diverges _ 256 (by decide) 257 0 0 (by decide)

/-- C7 (amended): for every byte array and every range `[start_i, end_i)` whose
bounds are at most 255, `hash` returns the left fold over
`data[start_i .. end_i - 1]`, from accumulator 0, of the two chained shift-or
steps truncated to 8 bits; the result is a single byte, and it is the same for
any two arrays that agree on the range. -/
theorem hash_is_checksum_fold (data : Arr Nat) (start_i end_i : Nat)
    (hs : start_i ≤ 255) (hend : end_i ≤ 255) :
    hash data start_i end_i = some (spec_checksum (slice data start_i end_i)) ∧
    spec_checksum (slice data start_i end_i) < 256 ∧
    ∀ data' : Arr Nat, (∀ j, start_i ≤ j → j < end_i → data' j = data j) →
      hash data' start_i end_i = hash data start_i end_i := by
  refine ⟨?_, ?_, ?_⟩
  · rw [spec_checksum_eq]
    exact hash_eq_fold data start_i end_i hs hend
  · rw [spec_checksum_eq]
    exact foldl_hash_step_lt _ 0 (by decide)
  · intro data' h
    rw [hash_eq_fold data' start_i end_i hs hend, hash_eq_fold data start_i end_i hs hend,
      slice_congr data' data start_i end_i h]

/-- C7 witness: the checksum of the payload `00 00 5A 00 5A 00 5A 00 FF FF`
held at indices 1..10 of a receive buffer. -/
theorem hash_is_checksum_fold_witness :
    (1 ≤ 255 ∧ 11 ≤ 255) ∧
    (hash (bytes [255, 0, 0, 90, 0, 90, 0, 90, 0, 255, 255]) 1 11
        = some (spec_checksum (slice (bytes [255, 0, 0, 90, 0, 90, 0, 90, 0, 255, 255]) 1 11)) ∧
      spec_checksum (slice (bytes [255, 0, 0, 90, 0, 90, 0, 90, 0, 255, 255]) 1 11) < 256 ∧
      ∀ data' : Arr Nat,
        (∀ j, 1 ≤ j → j < 11 → data' j = bytes [255, 0, 0, 90, 0, 90, 0, 90, 0, 255, 255] j) →
        hash data' 1 11 = hash (bytes [255, 0, 0, 90, 0, 90, 0, 90, 0, 255, 255]) 1 11) :=
  ⟨⟨by decide, by decide⟩,
    hash_is_checksum_fold (bytes [255, 0, 0, 90, 0, 90, 0, 90, 0, 255, 255]) 1 11
      (by decide) (by decide)⟩

/-! ## C1: round trip of the inbound decoder -/

/-- C1: for every ten payload bytes `b1..b10`, when the receive buffer holds
`[hash(b1..b10), b1, ..., b10]`, `update_control_data` returns with
`move_type = int8(b1)`, `val_move = int8(b2)`, `arm_q1`, `arm_q2`, `arm_q3` the
signed 16-bit little-endian values of `(b3,b4)`, `(b5,b6)`, `(b7,b8)`,
`arm_mode = int8(b9)` and audio mode `= int8(b10)`, whatever the Command Record
held before. -/
theorem update_control_data_roundtrip (b1 b2 b3 b4 b5 b6 b7 b8 b9 b10 : Nat)
    (hb : ∀ b ∈ [b1, b2, b3, b4, b5, b6, b7, b8, b9, b10], b < 256) (rx0 : Receive) :
    ∃ c, hash (bytes [b1, b2, b3, b4, b5, b6, b7, b8, b9, b10]) 0 10 = some c ∧
      update_control_data (bytes [c, b1, b2, b3, b4, b5, b6, b7, b8, b9, b10]) rx0 =
        some { init_sb := rx0.init_sb
               hsum := c
               move_type := spec_int8 b1
               val_move := spec_int8 b2
               arm_q1 := spec_int16_le b3 b4
               arm_q2 := spec_int16_le b5 b6
               arm_q3 := spec_int16_le b7 b8
               arm_mode := spec_int8 b9
               auido_mode := spec_int8 b10 } := by
  simp only [List.mem_cons, List.mem_singleton, forall_eq_or_imp, forall_eq, List.not_mem_nil,
    false_imp_iff, implies_true, and_true] at hb
  obtain ⟨h1, h2, h3, h4, h5, h6, h7, h8, h9, h10⟩ := hb
  refine ⟨spec_checksum [b1, b2, b3, b4, b5, b6, b7, b8, b9, b10], ?_, ?_⟩
  · rw [spec_checksum_eq, hash_eq_fold _ 0 10 (by decide) (by decide)]
    rfl
  · have hh : hash (bytes [spec_checksum [b1, b2, b3, b4, b5, b6, b7, b8, b9, b10],
        b1, b2, b3, b4, b5, b6, b7, b8, b9, b10]) 1 11
        = some (spec_checksum [b1, b2, b3, b4, b5, b6, b7, b8, b9, b10]) := by
      rw [hash_rx]
      rfl
    unfold update_control_data
    rw [hh]
    have e0 : bytes [spec_checksum [b1, b2, b3, b4, b5, b6, b7, b8, b9, b10],
        b1, b2, b3, b4, b5, b6, b7, b8, b9, b10] 0
        = spec_checksum [b1, b2, b3, b4, b5, b6, b7, b8, b9, b10] := rfl
    simp only [Option.bind_eq_bind, Option.some_bind, e0, if_true, Option.pure_def]
    simp only [bytes, List.getD_cons_succ, List.getD_cons_zero]
    rw [to_int8_eq_spec b1 h1, to_int8_eq_spec b2 h2, to_int8_eq_spec b9 h9,
      to_int8_eq_spec b10 h10, to_int16_eq_spec b3 b4 h3 h4, to_int16_eq_spec b5 b6 h5 h6,
      to_int16_eq_spec b7 b8 h7 h8]

/-- C1 witness: the payload `00 00 5A 00 5A 00 5A 00 FF FF`. -/
theorem update_control_data_roundtrip_witness :
    (∀ b ∈ [0, 0, 90, 0, 90, 0, 90, 0, 255, 255], b < 256) ∧
    ∃ c, hash (bytes [0, 0, 90, 0, 90, 0, 90, 0, 255, 255]) 0 10 = some c ∧
      update_control_data (bytes [c, 0, 0, 90, 0, 90, 0, 90, 0, 255, 255]) {} =
        some { init_sb := 35
               hsum := c
               move_type := 0
               val_move := 0
               arm_q1 := 90
               arm_q2 := 90
               arm_q3 := 90
               arm_mode := -1
               auido_mode := -1 } :=
  ⟨by decide, update_control_data_roundtrip 0 0 90 0 90 0 90 0 255 255 (by decide) {}⟩

/-! ## C2: checksum mismatch -/

/-- C2: for every receive buffer whose byte 0 differs from `hash` over bytes
1..10 and every prior Command Record, `update_control_data` returns, leaves
`arm_q1`, `arm_q2`, `arm_q3` and `arm_mode` as they were and sets `move_type`,
`val_move` and the audio mode to -1. -/
theorem update_control_data_mismatch (buff_rx : Arr Nat) (rx0 : Receive)
    (hne : hash buff_rx 1 11 ≠ some (buff_rx 0)) :
    ∃ rx1, update_control_data buff_rx rx0 = some rx1 ∧
      rx1.arm_q1 = rx0.arm_q1 ∧ rx1.arm_q2 = rx0.arm_q2 ∧ rx1.arm_q3 = rx0.arm_q3 ∧
      rx1.arm_mode = rx0.arm_mode ∧
      rx1.move_type = -1 ∧ rx1.val_move = -1 ∧ rx1.auido_mode = -1 := by
  rw [hash_rx] at hne
  have hne' : ¬ spec_checksum (slice buff_rx 1 11) = buff_rx 0 := fun h => hne (by rw [h])
  unfold update_control_data
  rw [hash_rx]
  simp only [Option.bind_eq_bind, Option.some_bind, hne', if_false, Option.pure_def]
  exact ⟨_, rfl, rfl, rfl, rfl, rfl, rfl, rfl, rfl⟩

/-- C2 witness: the payload `00 00 5A 00 5A 00 5A 00 FF FF` (checksum `FF`)
under the wrong checksum byte `00`. -/
theorem update_control_data_mismatch_witness :
    hash (bytes [0, 0, 0, 90, 0, 90, 0, 90, 0, 255, 255]) 1 11
      ≠ some (bytes [0, 0, 0, 90, 0, 90, 0, 90, 0, 255, 255] 0) ∧
    ∃ rx1, update_control_data (bytes [0, 0, 0, 90, 0, 90, 0, 90, 0, 255, 255])
        { arm_q1 := 10, arm_q2 := 20, arm_q3 := 30, arm_mode := 1, move_type := 3 } = some rx1 ∧
      rx1.arm_q1 = 10 ∧ rx1.arm_q2 = 20 ∧ rx1.arm_q3 = 30 ∧ rx1.arm_mode = 1 ∧
      rx1.move_type = -1 ∧ rx1.val_move = -1 ∧ rx1.auido_mode = -1 :=
  ⟨by decide, update_control_data_mismatch _ _ (by decide)⟩

/-! ## C6: layout of the outbound frame -/

theorem to_u8_lo (v : Int) : to_u8 v = spec_twos16 v % 256 := by
  unfold to_u8 spec_twos16
  omega

theorem to_u8_hi (v : Int) : to_u8 (v / 256) = spec_twos16 v / 256 := by
  unfold to_u8 spec_twos16
  omega

theorem write_ne {α : Type} (a : Arr α) (i j : Nat) (v : α) (h : j ≠ i) : write a i v j = a j := by
  simp [write, h]

theorem write_eq {α : Type} (a : Arr α) (i : Nat) (v : α) : write a i v i = v := by
  simp [write]

/-- One statement pair of `fill_tx_arr`: two writes to `buff.tx`, the index
advanced twice. -/
theorem put_int16_mk (v : Int) (i : Nat) (b : Buff) :
    put_int16 v (i, b) =
      (((i + 1) % 256 + 1) % 256,
        { b with two_bytes := from_int16 v b.two_bytes
                 tx := write (write b.tx i (to_u8 v)) ((i + 1) % 256) (to_u8 (v / 256)) }) := rfl

/-- The writes of `fill_tx_arr` to `buff.tx`, in program order. -/
theorem fill_tx_arr_tx (tx : Transmit) (buff : Buff) :
    (fill_tx_arr tx buff).tx =
      (buff.tx
      |> (write · 2 (to_u8 tx.left_wh)) |> (write · 3 (to_u8 (tx.left_wh / 256)))
      |> (write · 4 (to_u8 tx.right_wh)) |> (write · 5 (to_u8 (tx.right_wh / 256)))
      |> (write · 6 (to_u8 tx.mode_move)) |> (write · 7 (to_u8 (tx.mode_move / 256)))
      |> (write · 8 (to_u8 tx.x_arm)) |> (write · 9 (to_u8 (tx.x_arm / 256)))
      |> (write · 10 (to_u8 tx.y_arm)) |> (write · 11 (to_u8 (tx.y_arm / 256)))
      |> (write · 12 (to_u8 tx.z_arm)) |> (write · 13 (to_u8 (tx.z_arm / 256)))
      |> (write · 14 (to_u8 tx.mode_arm)) |> (write · 15 (to_u8 (tx.mode_arm / 256)))
      |> (write · 16 (to_u8 tx.ax)) |> (write · 17 (to_u8 (tx.ax / 256)))
      |> (write · 18 (to_u8 tx.ay)) |> (write · 19 (to_u8 (tx.ay / 256)))
      |> (write · 20 (to_u8 tx.az)) |> (write · 21 (to_u8 (tx.az / 256)))
      |> (write · 22 (to_u8 tx.gx)) |> (write · 23 (to_u8 (tx.gx / 256)))
      |> (write · 24 (to_u8 tx.gy)) |> (write · 25 (to_u8 (tx.gy / 256)))
      |> (write · 26 (to_u8 tx.gz)) |> (write · 27 (to_u8 (tx.gz / 256)))
      |> (write · 28 (to_u8 tx.ang_x)) |> (write · 29 (to_u8 (tx.ang_x / 256)))
      |> (write · 30 (to_u8 tx.ang_y)) |> (write · 31 (to_u8 (tx.ang_y / 256)))
      |> (write · 32 (to_u8 tx.ang_z)) |> (write · 33 (to_u8 (tx.ang_z / 256)))
      |> (write · 34 (to_u8 tx.odo_l)) |> (write · 35 (to_u8 (tx.odo_l / 256)))
      |> (write · 36 (to_u8 tx.odo_r)) |> (write · 37 (to_u8 (tx.odo_r / 256)))
      |> (write · 38 (to_u8 tx.lidar_angle)) |> (write · 39 (to_u8 (tx.lidar_angle / 256)))
      |> (write · 40 (to_u8 tx.lidar_dist)) |> (write · 41 (to_u8 (tx.lidar_dist / 256)))
      |> (write · 42 (to_u8 tx.sonar_1)) |> (write · 43 (to_u8 (tx.sonar_1 / 256)))
      |> (write · 44 (to_u8 tx.sonar_2)) |> (write · 45 (to_u8 (tx.sonar_2 / 256)))
      |> (write · 46 (from_int8 tx.ir)) |> (write · 47 (from_int8 tx.end_sens))
      |> (write · 1 tx.hsum)) := by
  simp only [fill_tx_arr, put_int16_mk, Nat.reduceAdd, Nat.reduceMod]

/-- C6: for every Telemetry Record, after `setup` and `fill_tx_arr` the frame
`buff.tx[0..47]`, which is what `tx_uart` writes to the serial port, is 48
bytes long with byte 0 = '%'; for `k = 0..21` bytes
`2+2k` and `3+2k` are the low and the high byte of the two's complement code of
the `k`-th 16-bit field, in the order `left_wh, right_wh, mode_move, x_arm,
y_arm, z_arm, mode_arm, ax, ay, az, gx, gy, gz, ang_x, ang_y, ang_z, odo_l,
odo_r, lidar_angle, lidar_dist, sonar_1, sonar_2`; byte 46 is the
digital-sensor bitfield and byte 47 the limit-switch bitfield; and
`fill_tx_arr` leaves every index of `buff.tx` outside 1..47 as it was. -/
theorem fill_tx_arr_layout (s0 : State) (hsb : s0.tx.start_sb = 37) (tx : Transmit) :
    (slice (fill_tx_arr tx (setup s0).buff).tx 0 48).length = 48 ∧
    (∀ st : State, (tx_uart 1 [] { st with buff := fill_tx_arr tx (setup s0).buff }).serial_out
      = st.serial_out ++ slice (fill_tx_arr tx (setup s0).buff).tx 0 48) ∧
    (fill_tx_arr tx (setup s0).buff).tx 0 = 37 ∧
    (∀ k, k < 22 →
      (fill_tx_arr tx (setup s0).buff).tx (2 + 2 * k)
        = spec_twos16 ((spec_fields tx).getD k 0) % 256 ∧
      (fill_tx_arr tx (setup s0).buff).tx (3 + 2 * k)
        = spec_twos16 ((spec_fields tx).getD k 0) / 256) ∧
    (fill_tx_arr tx (setup s0).buff).tx 46 = spec_twos8 tx.ir ∧
    (fill_tx_arr tx (setup s0).buff).tx 47 = spec_twos8 tx.end_sens ∧
    ∀ (buff : Buff) (j : Nat), (j = 0 ∨ 48 ≤ j) → (fill_tx_arr tx buff).tx j = buff.tx j := by
  refine ⟨by simp [slice], fun st => rfl, ?_, ?_, ?_, ?_, ?_⟩
  · rw [fill_tx_arr_tx]
    simp [write, setup, hsb, to_u8]
  · intro k hk
    rw [fill_tx_arr_tx]
    interval_cases k <;> simp only [write, spec_fields] <;>
      exact ⟨to_u8_lo _, to_u8_hi _⟩
  · rw [fill_tx_arr_tx]; rfl
  · rw [fill_tx_arr_tx]; rfl
  · intro buff j hj
    rw [fill_tx_arr_tx]
    simp (disch := omega) only [write_ne]

/-- C6 witness: the boot state and the boot Telemetry Record. -/
theorem fill_tx_arr_layout_witness :
    ({} : State).tx.start_sb = 37 ∧
    ((slice (fill_tx_arr {} (setup {}).buff).tx 0 48).length = 48 ∧
    (∀ st : State, (tx_uart 1 [] { st with buff := fill_tx_arr {} (setup {}).buff }).serial_out
      = st.serial_out ++ slice (fill_tx_arr {} (setup {}).buff).tx 0 48) ∧
    (fill_tx_arr {} (setup {}).buff).tx 0 = 37 ∧
    (∀ k, k < 22 →
      (fill_tx_arr {} (setup {}).buff).tx (2 + 2 * k)
        = spec_twos16 ((spec_fields {}).getD k 0) % 256 ∧
      (fill_tx_arr {} (setup {}).buff).tx (3 + 2 * k)
        = spec_twos16 ((spec_fields {}).getD k 0) / 256) ∧
    (fill_tx_arr {} (setup {}).buff).tx 46 = spec_twos8 ({} : Transmit).ir ∧
    (fill_tx_arr {} (setup {}).buff).tx 47 = spec_twos8 ({} : Transmit).end_sens ∧
    ∀ (buff : Buff) (j : Nat), (j = 0 ∨ 48 ≤ j) → (fill_tx_arr {} buff).tx j = buff.tx j) :=
  ⟨rfl, fill_tx_arr_layout {} rfl {}⟩

/-! ## C5: checksum byte of the outbound frame -/

/-- C5 fails on the code: `fill_tx_arr` stores the field `tx.hsum` in byte 1
of the frame and never computes `hash`.  For the boot Telemetry Record the
checksum byte is 9 while `hash` over the payload bytes 2..47 is 255. -/
theorem fill_tx_arr_checksum_not_hash :
    (∀ (tx : Transmit) (buff : Buff), (fill_tx_arr tx buff).tx 1 = tx.hsum) ∧
    (fill_tx_arr {} (setup {}).buff).tx 1 = 9 ∧
    hash (fill_tx_arr {} (setup {}).buff).tx 2 48 = some 255 := by
  refine ⟨fun tx buff => by rw [fill_tx_arr_tx]; rfl, by rw [fill_tx_arr_tx]; rfl, ?_⟩
  rw [hash_eq_fold _ 2 48 (by decide) (by decide), fill_tx_arr_tx]
  decide

/-! ## The byte-at-a-time receiver -/

theorem as_int8_eq_marker (b : Nat) (h : b < 256) : as_int8 (b : Int) = 35 ↔ b = 35 := by
  unfold as_int8
  omega

theorem update_control_data_congr (a b : Arr Nat) (rx : Receive) (h : ∀ j, j < 11 → a j = b j) :
    update_control_data a rx = update_control_data b rx := by
  unfold update_control_data
  rw [hash_rx, hash_rx, slice_congr a b 1 11 (fun j _ hj => h j hj)]
  simp only [h 0 (by decide), h 1 (by decide), h 2 (by decide), h 3 (by decide), h 4 (by decide),
    h 5 (by decide), h 6 (by decide), h 7 (by decide), h 8 (by decide), h 9 (by decide),
    h 10 (by decide)]

theorem update_control_data_total (a : Arr Nat) (rx : Receive) :
    ∃ rx1, update_control_data a rx = some rx1 := by
  unfold update_control_data
  rw [hash_rx]
  simp only [Option.bind_eq_bind, Option.some_bind, Option.pure_def]
  split <;> exact ⟨_, rfl⟩

theorem write_from_apply (l : List Nat) : ∀ (a : Arr Nat) (i j : Nat),
    write_from a i l j = if i ≤ j ∧ j < i + l.length then l.getD (j - i) 0 else a j := by
  induction l with
  | nil =>
    intro a i j
    have h : ¬ (i ≤ j ∧ j < i) := by omega
    simp [write_from, h]
  | cons b l ih =>
    intro a i j
    simp only [write_from, ih, List.length_cons, write]
    by_cases h1 : j = i
    · subst h1
      simp
    · by_cases h2 : i + 1 ≤ j ∧ j < i + 1 + l.length
      · have h3 : i ≤ j ∧ j < i + (l.length + 1) := by omega
        obtain ⟨m, hm⟩ : ∃ m, j - i = m + 1 := ⟨j - i - 1, by omega⟩
        simp [h2, h3, hm, show j - (i + 1) = m by omega]
      · have h3 : ¬ (i ≤ j ∧ j < i + (l.length + 1)) := by omega
        simp [h1, h2, h3]

theorem slice_write_from (a : Arr Nat) (l : List Nat) : slice (write_from a 0 l) 0 l.length = l := by
  apply List.ext_getElem
  · simp [slice]
  · intro n h1 h2
    simp only [slice, List.getElem_map, List.getElem_range', write_from_apply]
    simp [h2, List.getD_eq_getElem]

theorem rx_feed_append (l1 l2 : List Nat) : ∀ s : State,
    rx_feed s (l1 ++ l2) = (rx_feed s l1).bind (fun s => rx_feed s l2) := by
  induction l1 with
  | nil => intro s; simp [rx_feed]
  | cons b l ih =>
    intro s
    simp only [List.cons_append, rx_feed]
    cases h : rx_uart 1 (some b) s with
    | none => simp
    | some s1 => simp [ih]

/-- While waiting for the marker, bytes other than the marker change nothing. -/
theorem rx_feed_idle (l : List Nat) (s : State) (hflag : s.rx_flag = false)
    (hsb : s.rx.init_sb = 35) (hl : ∀ b ∈ l, b < 256 ∧ b ≠ 35) : rx_feed s l = some s := by
  induction l with
  | nil => rfl
  | cons b l ih =>
    have hb := hl b (List.mem_cons_self _ _)
    have hne : ¬ as_int8 (b : Int) = 35 := fun h => hb.2 ((as_int8_eq_marker b hb.1).1 h)
    have h1 : rx_uart 1 (some b) s = some s := by
      simp [rx_uart, hflag, hsb, hne]
    simp only [rx_feed, h1, Option.some_bind]
    exact ih (fun c hc => hl c (List.mem_cons_of_mem _ hc))

/-- The marker, seen while waiting, starts the accumulation at index 0. -/
theorem rx_uart_marker (s : State) (hflag : s.rx_flag = false) (hsb : s.rx.init_sb = 35) :
    rx_uart 1 (some 35) s = some { s with rx_flag := true, rx_i := 0 } := by
  simp [rx_uart, hflag, hsb, as_int8]

/-- While accumulating, bytes that do not fill the buffer are stored one
after the other and nothing else changes. -/
theorem rx_feed_accumulate (l : List Nat) : ∀ (s : State), s.rx_flag = true →
    s.rx_i + l.length ≤ 10 →
    rx_feed s l = some { s with buff := { s.buff with rx := write_from s.buff.rx s.rx_i l }
                                rx_i := s.rx_i + l.length } := by
  induction l with
  | nil => intro s _ _; rfl
  | cons b l ih =>
    intro s hflag hlen
    simp only [List.length_cons] at hlen
    have hmod : (s.rx_i + 1) % 256 = s.rx_i + 1 := Nat.mod_eq_of_lt (by omega)
    have hle : ¬ 10 < s.rx_i + 1 := by omega
    have h1 : rx_uart 1 (some b) s
        = some { s with buff := { s.buff with rx := write s.buff.rx s.rx_i b }
                        rx_i := s.rx_i + 1 } := by
      simp [rx_uart, hflag, hmod, hle]
    simp only [rx_feed, h1, Option.some_bind]
    let s1 : State := { s with buff := { s.buff with rx := write s.buff.rx s.rx_i b } }
    let s2 : State := { s1 with rx_i := s.rx_i + 1 }
    refine (ih s2 hflag (by show s.rx_i + 1 + l.length ≤ 10; omega)).trans ?_
    simp only [s2, s1]
    simp only [write_from, List.length_cons]
    congr 2
    omega

/-- The byte that fills the buffer ends the accumulation and runs the decoder
on the buffer. -/
theorem rx_uart_last (s : State) (b : Nat) (hflag : s.rx_flag = true) (hi : s.rx_i = 10) :
    rx_uart 1 (some b) s =
      (update_control_data (write s.buff.rx 10 b) s.rx).bind (fun rx =>
        some { s with buff := { s.buff with rx := write s.buff.rx 10 b }
                      rx_flag := false
                      rx_i := 0
                      rx := rx
                      decoded := s.decoded ++ [slice (write s.buff.rx 10 b) 0 11] }) := by
  simp [rx_uart, hflag, hi]

theorem write_from_append (l1 l2 : List Nat) : ∀ (a : Arr Nat) (i : Nat),
    write_from a i (l1 ++ l2) = write_from (write_from a i l1) (i + l1.length) l2 := by
  induction l1 with
  | nil => intro a i; rfl
  | cons b l ih =>
    intro a i
    show write_from (write a i b) (i + 1) (l ++ l2)
      = write_from (write_from (write a i b) (i + 1) l) (i + (l.length + 1)) l2
    rw [ih, show i + 1 + l.length = i + (l.length + 1) by omega]

theorem write_from_eq_bytes (a : Arr Nat) (l : List Nat) (j : Nat) (hj : j < l.length) :
    write_from a 0 l j = bytes l j := by
  rw [write_from_apply]
  simp [hj, bytes]

/-- A marker followed by `m ≤ 10` bytes, from the waiting state: the bytes are
in the buffer, the Command Record and the decoder log are as before. -/
theorem rx_feed_marker_head (st : State) (hflag : st.rx_flag = false)
    (hsb : st.rx.init_sb = 35) (l : List Nat) (hl : l.length ≤ 10) :
    ∃ st1, rx_feed st (35 :: l) = some st1 ∧ st1.rx = st.rx ∧ st1.decoded = st.decoded ∧
      st1.rx_flag = true ∧ st1.rx_i = l.length ∧ st1.buff.rx = write_from st.buff.rx 0 l := by
  let s1 : State := { st with rx_flag := true, rx_i := 0 }
  have h1 : rx_feed st (35 :: l) = rx_feed s1 l := by
    simp only [rx_feed, rx_uart_marker st hflag hsb, Option.some_bind, s1]
  have h2 := rx_feed_accumulate l s1 rfl (by show 0 + l.length ≤ 10; omega)
  rw [h1, h2]
  refine ⟨_, rfl, rfl, rfl, rfl, ?_, rfl⟩
  show 0 + l.length = l.length
  omega

/-! ## C4: framing of the byte-at-a-time receiver -/

/-- C4: from the idle receiver state (waiting for a marker, index 0), for every
byte sequence `s` without '#', followed by '#', followed by any 11 bytes `B`
none of which is '#', fed one byte per call of `rx_uart` on the serial link:
the Command Record is not touched, and the decoder not run, while `s`, the
marker and the first 10 bytes of `B` are consumed; on the 11th byte of `B`
`update_control_data` runs once, on a buffer equal to `B`; and the receiver is
back in the idle state afterwards. -/
theorem rx_uart_framing (st : State) (hflag : st.rx_flag = false) (hi : st.rx_i = 0)
    (hsb : st.rx.init_sb = 35) (s B : List Nat) (hs : ∀ b ∈ s, b < 256 ∧ b ≠ 35)
    (hlen : B.length = 11) (hB : ∀ b ∈ B, b < 256 ∧ b ≠ 35) :
    (∀ n, n ≤ s.length + 1 + 10 →
      ∃ st1, rx_feed st ((s ++ 35 :: B).take n) = some st1 ∧
        st1.rx = st.rx ∧ st1.decoded = st.decoded) ∧
    ∃ st2 rx2, rx_feed st (s ++ 35 :: B) = some st2 ∧
      update_control_data (bytes B) st.rx = some rx2 ∧
      st2.rx = rx2 ∧ st2.decoded = st.decoded ++ [B] ∧ slice st2.buff.rx 0 11 = B ∧
      st2.rx_flag = false ∧ st2.rx_i = 0 := by
  constructor
  · intro n hn
    rcases Nat.lt_or_ge s.length n with h | h
    · obtain ⟨m, rfl⟩ : ∃ m, n = s.length + (m + 1) := ⟨n - s.length - 1, by omega⟩
      rw [List.take_append, List.take_succ_cons, rx_feed_append, rx_feed_idle s st hflag hsb hs,
        Option.some_bind]
      obtain ⟨st1, h1, h2, h3, _⟩ := rx_feed_marker_head st hflag hsb (B.take m)
        (by rw [List.length_take]; omega)
      exact ⟨st1, h1, h2, h3⟩
    · rw [List.take_append_of_le_length h]
      exact ⟨st, rx_feed_idle _ st hflag hsb (fun b hb => hs b (List.mem_of_mem_take hb)),
        rfl, rfl⟩
  · obtain ⟨B10, b, rfl⟩ : ∃ B10 b, B = B10 ++ [b] := by
      rcases List.eq_nil_or_concat B with h | ⟨L, b, h⟩
      · rw [h] at hlen; simp at hlen
      · exact ⟨L, b, by rw [h, List.concat_eq_append]⟩
    have hlen10 : B10.length = 10 := by
      simp only [List.length_append, List.length_singleton] at hlen
      omega
    obtain ⟨st1, h1, h2, h3, h4, h5, h6⟩ :=
      rx_feed_marker_head st hflag hsb B10 (by omega)
    have hbuf : write st1.buff.rx 10 b = write_from st.buff.rx 0 (B10 ++ [b]) := by
      rw [write_from_append, h6, hlen10]
      rfl
    have hdec : update_control_data (write st1.buff.rx 10 b) st1.rx
        = update_control_data (bytes (B10 ++ [b])) st.rx := by
      rw [hbuf, h2]
      exact update_control_data_congr _ _ _
        (fun j hj => write_from_eq_bytes _ _ j (by rw [hlen]; exact hj))
    obtain ⟨rx2, hrx2⟩ := update_control_data_total (bytes (B10 ++ [b])) st.rx
    have hfeed : rx_feed st (s ++ 35 :: (B10 ++ [b])) = rx_uart 1 (some b) st1 := by
      rw [rx_feed_append, rx_feed_idle s st hflag hsb hs, Option.some_bind,
        ← List.cons_append, rx_feed_append, h1, Option.some_bind]
      simp only [rx_feed]
      cases rx_uart 1 (some b) st1 <;> rfl
    rw [hfeed, rx_uart_last st1 b h4 (by rw [h5, hlen10]), hdec, hrx2]
    refine ⟨_, rx2, rfl, rfl, rfl, ?_, ?_, rfl, rfl⟩
    · show st1.decoded ++ [slice (write st1.buff.rx 10 b) 0 11] = st.decoded ++ [B10 ++ [b]]
      rw [h3, hbuf, ← hlen, slice_write_from]
    · show slice (write st1.buff.rx 10 b) 0 11 = B10 ++ [b]
      rw [hbuf, ← hlen, slice_write_from]

/-- C4 witness: the boot state, the noise bytes `01 02`, the marker and the
frame `FF 00 00 5A 00 5A 00 5A 00 FF FF`. -/
theorem rx_uart_framing_witness :
    ((({} : State).rx_flag = false ∧ ({} : State).rx_i = 0 ∧ ({} : State).rx.init_sb = 35) ∧
      (∀ b ∈ [1, 2], b < 256 ∧ b ≠ 35) ∧
      ([255, 0, 0, 90, 0, 90, 0, 90, 0, 255, 255]).length = 11 ∧
      (∀ b ∈ [255, 0, 0, 90, 0, 90, 0, 90, 0, 255, 255], b < 256 ∧ b ≠ 35)) ∧
    ((∀ n, n ≤ [1, 2].length + 1 + 10 →
      ∃ st1, rx_feed {} (([1, 2] ++ 35 :: [255, 0, 0, 90, 0, 90, 0, 90, 0, 255, 255]).take n) = some st1 ∧
        st1.rx = ({} : State).rx ∧ st1.decoded = ({} : State).decoded) ∧
    ∃ st2 rx2, rx_feed {} ([1, 2] ++ 35 :: [255, 0, 0, 90, 0, 90, 0, 90, 0, 255, 255]) = some st2 ∧
      update_control_data (bytes [255, 0, 0, 90, 0, 90, 0, 90, 0, 255, 255]) ({} : State).rx = some rx2 ∧
      st2.rx = rx2 ∧ st2.decoded = ({} : State).decoded ++ [[255, 0, 0, 90, 0, 90, 0, 90, 0, 255, 255]] ∧
      slice st2.buff.rx 0 11 = [255, 0, 0, 90, 0, 90, 0, 90, 0, 255, 255] ∧
      st2.rx_flag = false ∧ st2.rx_i = 0) :=
  ⟨⟨⟨rfl, rfl, rfl⟩, by decide, rfl, by decide⟩,
    rx_uart_framing {} rfl rfl rfl [1, 2] [255, 0, 0, 90, 0, 90, 0, 90, 0, 255, 255] (by decide) rfl (by decide)⟩

/-! ## C3: a second marker during accumulation -/

/-- C3 fails on the code: while accumulating, `rx_uart` stores every byte,
a '#' included, and never restarts.  On the stream `# 01 #` followed by the
valid frame `FF 00 00 5A 00 5A 00 5A 00 FF FF`, the only decode attempt is made
on the buffer `01 23 FF 00 00 5A 00 5A 00 5A 00` (it fails the checksum and
leaves `move_type = -1`), whereas the 11 bytes after the second marker decode
to `move_type = 0`. -/
theorem rx_uart_second_marker_stored :
    (rx_feed {} ([35, 1, 35] ++ [255, 0, 0, 90, 0, 90, 0, 90, 0, 255, 255])).map
        (fun s => (s.decoded, s.rx_flag, s.rx_i, s.rx.move_type))
      = some ([[1, 35, 255, 0, 0, 90, 0, 90, 0, 90, 0]], false, 0, -1) ∧
    (update_control_data (bytes [255, 0, 0, 90, 0, 90, 0, 90, 0, 255, 255]) {}).map (fun r => r.move_type) = some 0 := by
  decide

/-! ## The task bodies leave the schedule table alone -/

theorem Timer.get_set (t : Timer) (k : TaskId) (v : Nat) : (t.set k v).get k = v := by
  cases k <;> rfl

theorem tx_uart_read_frame (s : State) (payload : Arr Nat) :
    (tx_uart_read s payload).tmr = s.tmr ∧ (tx_uart_read s payload).ran = s.ran :=
  ⟨rfl, rfl⟩

theorem tx_uart_frame (MODE : Nat) (l : List (Arr Nat)) (s : State) :
    (tx_uart MODE l s).tmr = s.tmr ∧ (tx_uart MODE l s).ran = s.ran := by
  have hfold : ∀ (l : List (Arr Nat)) (s : State),
      (l.foldl tx_uart_read s).tmr = s.tmr ∧ (l.foldl tx_uart_read s).ran = s.ran := by
    intro l
    induction l with
    | nil => intro s; exact ⟨rfl, rfl⟩
    | cons a l ih =>
      intro s
      simp only [List.foldl_cons]
      exact ⟨(ih _).1.trans (tx_uart_read_frame s a).1, (ih _).2.trans (tx_uart_read_frame s a).2⟩
  unfold tx_uart
  split_ifs
  · exact ⟨rfl, rfl⟩
  · exact hfold _ _
  · exact ⟨rfl, rfl⟩

theorem rx_uart_frame (MODE : Nat) (serial : Option Nat) (s : State) :
    ∃ s1, rx_uart MODE serial s = some s1 ∧ s1.tmr = s.tmr ∧ s1.ran = s.ran := by
  unfold rx_uart
  by_cases h1 : MODE = 1
  · rw [if_pos h1]
    cases serial with
    | none => exact ⟨s, rfl, rfl, rfl⟩
    | some byte =>
      dsimp only
      split_ifs with h3 h4 h5
      · obtain ⟨rx1, hrx1⟩ := update_control_data_total (write s.buff.rx s.rx_i byte) s.rx
        rw [hrx1]
        exact ⟨_, rfl, rfl, rfl⟩
      · exact ⟨_, rfl, rfl, rfl⟩
      · exact ⟨_, rfl, rfl, rfl⟩
      · exact ⟨_, rfl, rfl, rfl⟩
  · rw [if_neg h1]
    split_ifs <;> exact ⟨s, rfl, rfl, rfl⟩

theorem set_wheel_body_frame (ms : Nat → Nat) (s : State) :
    (set_wheel_body ms s).tmr = s.tmr ∧ (set_wheel_body ms s).ran = s.ran := by
  unfold set_wheel_body
  dsimp only
  split_ifs <;> exact ⟨rfl, rfl⟩

theorem rc_nrf_frame (j : Option (Nat × Arr Int)) (ms : Nat → Nat) (s : State) (k : TaskId) :
    (rc_nrf j ms s).tmr.get k = s.tmr.get k ∧ (rc_nrf j ms s).ran = s.ran := by
  unfold rc_nrf
  split_ifs
  · exact ⟨rfl, rfl⟩
  · cases j with
    | none => exact ⟨rfl, rfl⟩
    | some pd => cases k <;> exact ⟨rfl, rfl⟩

/-- Every task body returns, and leaves the last-fire timestamps of the tasks
and the record of the bodies run as they were. -/
theorem task_body_frame (MODE : Nat) (e : Env) (k : TaskId) (s : State) :
    ∃ s1, task_body MODE e k s = some s1 ∧ s1.tmr.get k = s.tmr.get k ∧ s1.ran = s.ran := by
  cases k
  case nrf_r => exact ⟨_, rfl, (rc_nrf_frame _ _ _ _).1, (rc_nrf_frame _ _ _ .nrf_r).2⟩
  case check_imu =>
    refine ⟨_, rfl, ?_, ?_⟩ <;> (unfold get_imu; cases e.imu <;> rfl)
  case check_mltx => exact ⟨_, rfl, rfl, rfl⟩
  case check_lidar => exact ⟨_, rfl, rfl, rfl⟩
  case check_odo => exact ⟨_, rfl, rfl, rfl⟩
  case tx =>
    refine ⟨_, rfl, ?_, ?_⟩
    · rw [(tx_uart_frame _ _ _).1]
    · rw [(tx_uart_frame _ _ _).2]
  case rx =>
    obtain ⟨s1, h1, h2, h3⟩ := rx_uart_frame MODE e.serial s
    exact ⟨s1, h1, by rw [h2], h3⟩
  case set_wheel =>
    refine ⟨_, rfl, ?_, ?_⟩
    · rw [(set_wheel_body_frame _ _).1]
    · rw [(set_wheel_body_frame _ _).2]
  case set_arm => exact ⟨_, rfl, rfl, rfl⟩
  case set_periph => exact ⟨_, rfl, rfl, rfl⟩

/-! ## C8: the due test of the scheduler -/

/-- C8 as stated fails at equality: for the transmit task (period 48 ms, last
fire 0) at the clock reading 48 the difference equals the period, yet the
body does not run (nothing is sent, no body is recorded) and the last-fire
timestamp stays 0. -/
theorem run_task_not_due_at_equality :
    sub_u32 48 (({} : State).tmr.get .tx) = PRD.get .tx ∧
    (run_task 1 { millis := fun _ _ => 48 } .tx {}).map
        (fun s => (s.ran, s.tmr.get .tx, s.serial_out)) = some ([], 0, []) := by
  decide

/-- C8 (amended): for every periodic task that a kernel pass guards and every
clock reading `now` (read by the due test and by the store), with the
difference taken as the program takes it (unsigned 32-bit): if
`now - last_fire > period` (strictly) the task body runs and the task's
`last_fire` is `now` afterwards; if `now - last_fire ≤ period` (equality
included) the body does not run and nothing changes. -/
theorem run_task_due_test (MODE : Nat) (e : Env) (k : TaskId) (s : State) (now : Nat)
    (h0 : e.millis k 0 = now) (h1 : e.millis k 1 = now) :
    (sub_u32 now (s.tmr.get k) > PRD.get k →
      ∃ s1, run_task MODE e k s = some s1 ∧
        task_body MODE e k { s with tmr := s.tmr.set k now, ran := s.ran ++ [k] } = some s1 ∧
        s1.tmr.get k = now ∧ s1.ran = s.ran ++ [k]) ∧
    (sub_u32 now (s.tmr.get k) ≤ PRD.get k → run_task MODE e k s = some s) := by
  constructor
  · intro h
    obtain ⟨s1, hs1, ht, hr⟩ :=
      task_body_frame MODE e k { s with tmr := s.tmr.set k now, ran := s.ran ++ [k] }
    refine ⟨s1, ?_, hs1, ?_, hr⟩
    · unfold run_task
      rw [h0, h1, if_pos h]
      exact hs1
    · rw [ht]
      exact Timer.get_set _ _ _
  · intro h
    unfold run_task
    rw [h0, if_neg (by omega)]

/-- C8 witness: the transmit task on the serial link at the clock reading 49,
from the boot state. -/
theorem run_task_due_test_witness :
    ((fun (_ : TaskId) (_ : Nat) => 49) .tx 0 = 49 ∧ (fun (_ : TaskId) (_ : Nat) => 49) .tx 1 = 49) ∧
    ((sub_u32 49 (({} : State).tmr.get .tx) > PRD.get .tx →
      ∃ s1, run_task 1 { millis := fun _ _ => 49 } .tx {} = some s1 ∧
        task_body 1 { millis := fun _ _ => 49 } .tx
          { ({} : State) with tmr := ({} : State).tmr.set .tx 49,
                              ran := ({} : State).ran ++ [.tx] } = some s1 ∧
        s1.tmr.get .tx = 49 ∧ s1.ran = ({} : State).ran ++ [.tx]) ∧
    (sub_u32 49 (({} : State).tmr.get .tx) ≤ PRD.get .tx →
      run_task 1 { millis := fun _ _ => 49 } .tx {} = some {})) :=
  ⟨⟨rfl, rfl⟩, run_task_due_test 1 { millis := fun _ _ => 49 } .tx {} 49 rfl rfl⟩

/-! ## C9: no latch while a move is in progress -/

/-- C9: for every Motion State with `is_done_move = false`, every Command
Record, every clock reading and every heading, one motion step (the body of
the `set_wheel` task) leaves the active move-type, the active move-value, the
heading snapshot and the five per-type start timestamps unchanged. -/
theorem set_wheel_body_no_latch (ms : Nat → Nat) (s : State)
    (hd : s.plat.is_done_move = false) :
    (set_wheel_body ms s).plat.target_type = s.plat.target_type ∧
    (set_wheel_body ms s).plat.target_val = s.plat.target_val ∧
    (set_wheel_body ms s).plat.loc_init_ang = s.plat.loc_init_ang ∧
    (set_wheel_body ms s).plat.tmr = s.plat.tmr := by
  unfold set_wheel_body
  rw [if_neg (by rw [hd]; decide)]
  dsimp only
  split_ifs <;> exact ⟨rfl, rfl, rfl, rfl⟩

/-- C9 witness: a rotation in progress while the Command Record holds a fresh
STOP command. -/
theorem set_wheel_body_no_latch_witness :
    ({ plat := { target_type := 3, target_val := 90 }, rx := { move_type := 0, val_move := 0 } }
      : State).plat.is_done_move = false ∧
    ((set_wheel_body (fun _ => 1000)
        { plat := { target_type := 3, target_val := 90 },
          rx := { move_type := 0, val_move := 0 } }).plat.target_type = 3 ∧
      (set_wheel_body (fun _ => 1000)
        { plat := { target_type := 3, target_val := 90 },
          rx := { move_type := 0, val_move := 0 } }).plat.target_val = 90 ∧
      (set_wheel_body (fun _ => 1000)
        { plat := { target_type := 3, target_val := 90 },
          rx := { move_type := 0, val_move := 0 } }).plat.loc_init_ang
        = ({} : Platform).loc_init_ang ∧
      (set_wheel_body (fun _ => 1000)
        { plat := { target_type := 3, target_val := 90 },
          rx := { move_type := 0, val_move := 0 } }).plat.tmr = ({} : Platform).tmr) :=
  ⟨rfl, set_wheel_body_no_latch (fun _ => 1000)
    { plat := { target_type := 3, target_val := 90 }, rx := { move_type := 0, val_move := 0 } }
    rfl⟩

/-! ## C10: exit test of the rotation in place -/

/-- C10 as stated fails at equality: with snapshot 0, heading 90 and
move-value +90 the heading delta is 90, yet the motion step leaves
`is_done_move = false`. -/
theorem rotate_in_place_not_done_at_equality :
    (set_wheel_body (fun _ => 0)
      { plat := { target_type := 3, target_val := 90 }, tx := { ang_z := 90 } }).plat.is_done_move
      = false := by
  decide

/-- C10 (amended): for every Motion State with `is_done_move = false` and
active move-type 3 (rotation in place), whose heading delta
`heading - snapshot` fits the 16-bit `int` in which it is computed, one motion
step sets `is_done_move = true` exactly when `heading - snapshot > move-value`
(strictly) if the move-value is positive, and exactly when
`heading - snapshot < move-value` (strictly) if the move-value is negative;
otherwise `is_done_move` stays false. -/
theorem rotate_in_place_exit (ms : Nat → Nat) (s : State)
    (hd : s.plat.is_done_move = false) (ht : s.plat.target_type = 3)
    (hfit : -32768 ≤ s.tx.ang_z - s.plat.loc_init_ang 2 ∧
      s.tx.ang_z - s.plat.loc_init_ang 2 ≤ 32767) :
    (0 < s.plat.target_val →
      ((set_wheel_body ms s).plat.is_done_move = true ↔
        s.tx.ang_z - s.plat.loc_init_ang 2 > s.plat.target_val)) ∧
    (s.plat.target_val < 0 →
      ((set_wheel_body ms s).plat.is_done_move = true ↔
        s.tx.ang_z - s.plat.loc_init_ang 2 < s.plat.target_val)) := by
  have hw : as_int16 (s.tx.ang_z - s.plat.loc_init_ang 2) = s.tx.ang_z - s.plat.loc_init_ang 2 := by
    unfold as_int16
    omega
  have h0 : ¬ s.plat.target_type = 0 := by omega
  have h1 : ¬ s.plat.target_type = 1 := by omega
  have h2 : ¬ s.plat.target_type = 2 := by omega
  unfold set_wheel_body
  rw [if_neg (by rw [hd]; decide), if_neg h0, if_neg h1, if_neg h2, if_pos ht]
  dsimp only
  have e1 : ∀ a b : Int, (set_PWM_wheel a b s).tx.ang_z = s.tx.ang_z := fun _ _ => rfl
  have e2 : ∀ a b : Int, (set_PWM_wheel a b s).plat = s.plat := fun _ _ => rfl
  simp only [e1, e2, hw]
  constructor
  · intro hpos
    rw [if_pos hpos]
    split_ifs with h
    · exact ⟨fun _ => h, fun _ => rfl⟩
    · exact ⟨fun hdone => absurd (show s.plat.is_done_move = true from hdone) (by rw [hd]; decide),
        fun hgt => absurd hgt h⟩
  · intro hneg
    rw [if_neg (by omega)]
    split_ifs with h
    · exact ⟨fun _ => h, fun _ => rfl⟩
    · exact ⟨fun hdone => absurd (show s.plat.is_done_move = true from hdone) (by rw [hd]; decide),
        fun hlt => absurd hlt h⟩

/-- C10 witness: snapshot 0, heading 91, move-value +90: the delta 91 exceeds
90 and the step ends the move. -/
theorem rotate_in_place_exit_witness :
    (({ plat := { target_type := 3, target_val := 90 }, tx := { ang_z := 91 } }
        : State).plat.is_done_move = false ∧
      ({ plat := { target_type := 3, target_val := 90 }, tx := { ang_z := 91 } }
        : State).plat.target_type = 3 ∧
      (-32768 : Int) ≤ 91 - 0 ∧ (91 : Int) - 0 ≤ 32767) ∧
    (((0 : Int) < 90 →
      ((set_wheel_body (fun _ => 0)
          { plat := { target_type := 3, target_val := 90 }, tx := { ang_z := 91 } }
        ).plat.is_done_move = true ↔ (91 : Int) - 0 > 90)) ∧
    ((90 : Int) < 0 →
      ((set_wheel_body (fun _ => 0)
          { plat := { target_type := 3, target_val := 90 }, tx := { ang_z := 91 } }
        ).plat.is_done_move = true ↔ (91 : Int) - 0 < 90))) :=
  ⟨⟨rfl, rfl, by decide, by decide⟩,
    rotate_in_place_exit (fun _ => 0)
      { plat := { target_type := 3, target_val := 90 }, tx := { ang_z := 91 } }
      rfl rfl ⟨by decide, by decide⟩⟩

/-! ## C11: exit test of STOP -/

/-- C11 as stated fails at equality: in the boot Motion State (STOP running,
start timestamp 0, budget 500) the step at clock reading 500 sees an elapsed
time equal to the budget, yet leaves `is_done_move = false`. -/
theorem stop_not_done_at_budget :
    sub_u32 500 (({} : State).plat.tmr 0) = ({} : State).plat.prd 0 ∧
    (set_wheel_body (fun _ => 500) {}).plat.is_done_move = false := by
  decide

/-- C11 (amended): for every Motion State with `is_done_move = false` and
active move-type 0 (STOP), one motion step at clock reading `ms 0` sets
`is_done_move = true` if and only if `now - tmr[0] > prd[0]` (strictly, the
difference taken in unsigned 32-bit arithmetic); the outcome is the same
whatever the Telemetry Record and the Command Record hold; the step leaves the
budgets alone, and the STOP budget is 500 ms at boot. -/
theorem stop_exit (ms : Nat → Nat) (s : State)
    (hd : s.plat.is_done_move = false) (ht : s.plat.target_type = 0) :
    ((set_wheel_body ms s).plat.is_done_move = true ↔
      sub_u32 (ms 0) (s.plat.tmr 0) > s.plat.prd 0) ∧
    (∀ (tx : Transmit) (rx : Receive),
      (set_wheel_body ms { s with tx := tx, rx := rx }).plat.is_done_move
        = (set_wheel_body ms s).plat.is_done_move) ∧
    (set_wheel_body ms s).plat.prd = s.plat.prd ∧
    ({} : Platform).prd 0 = 500 := by
  have key : ∀ s : State, s.plat.is_done_move = false → s.plat.target_type = 0 →
      (set_wheel_body ms s).plat.is_done_move
        = decide (sub_u32 (ms 0) (s.plat.tmr 0) > s.plat.prd 0) ∧
      (set_wheel_body ms s).plat.prd = s.plat.prd := by
    intro s hd ht
    unfold set_wheel_body
    rw [if_neg (by rw [hd]; decide), if_pos ht]
    dsimp only
    have e2 : (set_PWM_wheel (s.plat.stop 0) (s.plat.stop 1) s).plat = s.plat := rfl
    have e0 : (0 : Int).toNat = 0 := rfl
    rw [e2, ht, e0]
    split_ifs with h
    · exact ⟨by simp [move_done, h], rfl⟩
    · exact ⟨by simp [set_PWM_wheel, hd, h], rfl⟩
  refine ⟨?_, ?_, (key s hd ht).2, rfl⟩
  · rw [(key s hd ht).1]
    simp
  · intro tx rx
    rw [(key s hd ht).1, (key { s with tx := tx, rx := rx } hd ht).1]

/-- C11 witness: the boot Motion State at clock reading 501. -/
theorem stop_exit_witness :
    (({} : State).plat.is_done_move = false ∧ ({} : State).plat.target_type = 0) ∧
    (((set_wheel_body (fun _ => 501) {}).plat.is_done_move = true ↔
      sub_u32 501 (({} : State).plat.tmr 0) > ({} : State).plat.prd 0) ∧
    (∀ (tx : Transmit) (rx : Receive),
      (set_wheel_body (fun _ => 501) { ({} : State) with tx := tx, rx := rx }).plat.is_done_move
        = (set_wheel_body (fun _ => 501) {}).plat.is_done_move) ∧
    (set_wheel_body (fun _ => 501) {}).plat.prd = ({} : State).plat.prd ∧
    ({} : Platform).prd 0 = 500) :=
  ⟨⟨rfl, rfl⟩, stop_exit (fun _ => 501) {} rfl rfl⟩

/-! ## C12: the Motion State at boot -/

/-- A step of a STOP in progress requests the zero-speed pair of the platform
and keeps the active move. -/
theorem set_wheel_body_stop (ms : Nat → Nat) (s : State)
    (hd : s.plat.is_done_move = false) (ht : s.plat.target_type = 0) :
    (set_wheel_body ms s).wheel = s.wheel ++ [(s.plat.stop 0, s.plat.stop 1)] ∧
    (set_wheel_body ms s).plat.target_type = s.plat.target_type ∧
    (set_wheel_body ms s).plat.target_val = s.plat.target_val := by
  unfold set_wheel_body
  rw [if_neg (by rw [hd]; decide), if_pos ht]
  dsimp only
  split_ifs <;> exact ⟨rfl, rfl, rfl⟩

/-- C12 as stated fails: the Motion State is constructed with
`is_done_move = false`, and `setup` does not touch it. -/
theorem boot_is_not_done :
    ({} : State).plat.is_done_move = false ∧ (setup {}).plat.is_done_move = false :=
  ⟨rfl, rfl⟩

/-- C12 (amended): the Motion State at boot has `is_done_move = false` with
active move-type 0 (STOP), move-value 0 and start timestamps 0, i.e. the
machine starts in the middle of a STOP move; its first motion step, whatever
the Command Record and the Telemetry Record hold by then, executes that STOP
(it requests the zero wheel setpoints) and latches nothing. -/
theorem boot_motion_state (ms : Nat → Nat) (s : State) :
    ({} : Platform).is_done_move = false ∧ ({} : Platform).target_type = 0 ∧
    ({} : Platform).target_val = 0 ∧ (∀ j, ({} : Platform).tmr j = 0) ∧
    (setup { s with plat := {} }).plat.is_done_move = false ∧
    (set_wheel_body ms { s with plat := {} }).wheel = s.wheel ++ [(0, 0)] ∧
    (set_wheel_body ms { s with plat := {} }).plat.target_type = 0 ∧
    (set_wheel_body ms { s with plat := {} }).plat.target_val = 0 := by
  have h := set_wheel_body_stop ms { s with plat := {} } rfl rfl
  exact ⟨rfl, rfl, rfl, fun _ => rfl, rfl, h.1, h.2.1, h.2.2⟩

/-! ## C13: entry to a new move -/

/-- C13: for every Motion State with `is_done_move = true`, one motion step at
clock reading `now` (the value of each of its five calls of `millis()`) yields
active move-type = `rx.move_type`, active move-value = `rx.val_move`, heading
snapshot = `tx.ang_z`, all five per-type start timestamps equal to `now`,
`is_done_move = false` and move-status 0, and requests no wheel setpoint. -/
theorem set_wheel_body_latch (ms : Nat → Nat) (now : Nat) (s : State)
    (hd : s.plat.is_done_move = true) (hclk : ∀ j, j < 5 → ms j = now) :
    (set_wheel_body ms s).plat.target_type = s.rx.move_type ∧
    (set_wheel_body ms s).plat.target_val = s.rx.val_move ∧
    (set_wheel_body ms s).plat.loc_init_ang 2 = s.tx.ang_z ∧
    (∀ j, j < 5 → (set_wheel_body ms s).plat.tmr j = now) ∧
    (set_wheel_body ms s).plat.is_done_move = false ∧
    (set_wheel_body ms s).tx.mode_move = 0 ∧
    (set_wheel_body ms s).wheel = s.wheel := by
  unfold set_wheel_body
  rw [if_pos hd]
  refine ⟨rfl, rfl, rfl, ?_, rfl, rfl, rfl⟩
  intro j hj
  dsimp only
  interval_cases j <;> simp [write, List.range, List.range.loop, hclk]

/-- C13 witness: a finished move, the Command Record holding a rotation by
+90, heading 1234, clock reading 7000. -/
theorem set_wheel_body_latch_witness :
    (({ plat := { is_done_move := true }, rx := { move_type := 3, val_move := 90 },
        tx := { ang_z := 1234 } } : State).plat.is_done_move = true ∧
      (∀ j, j < 5 → (fun (_ : Nat) => 7000) j = 7000)) ∧
    ((set_wheel_body (fun _ => 7000)
        { plat := { is_done_move := true }, rx := { move_type := 3, val_move := 90 },
          tx := { ang_z := 1234 } }).plat.target_type = 3 ∧
    (set_wheel_body (fun _ => 7000)
        { plat := { is_done_move := true }, rx := { move_type := 3, val_move := 90 },
          tx := { ang_z := 1234 } }).plat.target_val = 90 ∧
    (set_wheel_body (fun _ => 7000)
        { plat := { is_done_move := true }, rx := { move_type := 3, val_move := 90 },
          tx := { ang_z := 1234 } }).plat.loc_init_ang 2 = 1234 ∧
    (∀ j, j < 5 → (set_wheel_body (fun _ => 7000)
        { plat := { is_done_move := true }, rx := { move_type := 3, val_move := 90 },
          tx := { ang_z := 1234 } }).plat.tmr j = 7000) ∧
    (set_wheel_body (fun _ => 7000)
        { plat := { is_done_move := true }, rx := { move_type := 3, val_move := 90 },
          tx := { ang_z := 1234 } }).plat.is_done_move = false ∧
    (set_wheel_body (fun _ => 7000)
        { plat := { is_done_move := true }, rx := { move_type := 3, val_move := 90 },
          tx := { ang_z := 1234 } }).tx.mode_move = 0 ∧
    (set_wheel_body (fun _ => 7000)
        { plat := { is_done_move := true }, rx := { move_type := 3, val_move := 90 },
          tx := { ang_z := 1234 } }).wheel = []) :=
  ⟨⟨rfl, fun _ _ => rfl⟩,
    set_wheel_body_latch (fun _ => 7000) 7000
      { plat := { is_done_move := true }, rx := { move_type := 3, val_move := 90 },
        tx := { ang_z := 1234 } } rfl (fun _ _ => rfl)⟩

/-! ## C16: link-silence fail-safe -/

/-- C16: for every call of `rc_nrf` at a clock reading `ms 0` with
`now - tmr.check_nrf` greater than the link timeout `PRD.check_nrf` (100 ms),
whether or not a packet is available, the joystick record afterwards is
`x1 = y1 = x2 = y2 = 512` and `btn1 = btn2 = 0`. -/
theorem rc_nrf_timeout (nrf_joy : Option (Nat × Arr Int)) (ms : Nat → Nat) (s : State)
    (hto : sub_u32 (ms 0) s.tmr.check_nrf > PRD.check_nrf) :
    PRD.check_nrf = 100 ∧
    (rc_nrf nrf_joy ms s).rec_nrf.x1 = 512 ∧ (rc_nrf nrf_joy ms s).rec_nrf.y1 = 512 ∧
    (rc_nrf nrf_joy ms s).rec_nrf.x2 = 512 ∧ (rc_nrf nrf_joy ms s).rec_nrf.y2 = 512 ∧
    (rc_nrf nrf_joy ms s).rec_nrf.btn1 = 0 ∧ (rc_nrf nrf_joy ms s).rec_nrf.btn2 = 0 := by
  unfold rc_nrf
  rw [if_pos hto]
  exact ⟨rfl, rfl, rfl, rfl, rfl, rfl, rfl⟩

/-- C16 witness: last packet at 0 ms, call at 101 ms, a packet with the
sticks off centre and both buttons pressed waiting in the transceiver. -/
theorem rc_nrf_timeout_witness :
    sub_u32 ((fun (_ : Nat) => 101) 0) ({} : State).tmr.check_nrf > PRD.check_nrf ∧
    (PRD.check_nrf = 100 ∧
    (rc_nrf (some (1, fun _ => 1)) (fun _ => 101) {}).rec_nrf.x1 = 512 ∧
    (rc_nrf (some (1, fun _ => 1)) (fun _ => 101) {}).rec_nrf.y1 = 512 ∧
    (rc_nrf (some (1, fun _ => 1)) (fun _ => 101) {}).rec_nrf.x2 = 512 ∧
    (rc_nrf (some (1, fun _ => 1)) (fun _ => 101) {}).rec_nrf.y2 = 512 ∧
    (rc_nrf (some (1, fun _ => 1)) (fun _ => 101) {}).rec_nrf.btn1 = 0 ∧
    (rc_nrf (some (1, fun _ => 1)) (fun _ => 101) {}).rec_nrf.btn2 = 0) :=
  ⟨by decide, rc_nrf_timeout (some (1, fun _ => 1)) (fun _ => 101) {} (by decide)⟩

/-! ## What each task body leaves alone -/

theorem foldl_tx_uart_read_keeps (l : List (Arr Nat)) : ∀ s : State,
    (l.foldl tx_uart_read s).plat = s.plat ∧ (l.foldl tx_uart_read s).wheel = s.wheel ∧
    (l.foldl tx_uart_read s).tx = s.tx ∧ (l.foldl tx_uart_read s).rx = s.rx ∧
    (l.foldl tx_uart_read s).decoded = s.decoded ∧
    (l.foldl tx_uart_read s).buff.tx = s.buff.tx ∧
    (l.foldl tx_uart_read s).serial_out = s.serial_out := by
  induction l with
  | nil => intro s; exact ⟨rfl, rfl, rfl, rfl, rfl, rfl, rfl⟩
  | cons a l ih =>
    intro s
    simp only [List.foldl_cons]
    obtain ⟨h1, h2, h3, h4, h5, h6, h7⟩ := ih (tx_uart_read s a)
    exact ⟨h1, h2, h3, h4, h5, h6, h7⟩

/-- Function `tx_uart` writes to the links and to the receive-side buffers only. -/
theorem tx_uart_keeps (MODE : Nat) (l : List (Arr Nat)) (s : State) :
    (tx_uart MODE l s).plat = s.plat ∧ (tx_uart MODE l s).wheel = s.wheel ∧
    (tx_uart MODE l s).tx = s.tx ∧ (tx_uart MODE l s).rx = s.rx ∧
    (tx_uart MODE l s).decoded = s.decoded ∧ (tx_uart MODE l s).buff.tx = s.buff.tx := by
  unfold tx_uart
  split_ifs
  · exact ⟨rfl, rfl, rfl, rfl, rfl, rfl⟩
  · dsimp only
    have h := foldl_tx_uart_read_keeps l
    exact ⟨(h _).1, (h _).2.1, (h _).2.2.1, (h _).2.2.2.1, (h _).2.2.2.2.1, (h _).2.2.2.2.2.1⟩
  · exact ⟨rfl, rfl, rfl, rfl, rfl, rfl⟩

/-- Function `rx_uart` returns, and writes to the receive buffer, the receiver state
and the Command Record only. -/
theorem rx_uart_keeps (MODE : Nat) (serial : Option Nat) (s : State) :
    ∃ s1, rx_uart MODE serial s = some s1 ∧ s1.plat = s.plat ∧ s1.wheel = s.wheel ∧
      s1.tx = s.tx ∧ s1.buff.tx = s.buff.tx := by
  unfold rx_uart
  by_cases h1 : MODE = 1
  · rw [if_pos h1]
    cases serial with
    | none => exact ⟨s, rfl, rfl, rfl, rfl, rfl⟩
    | some byte =>
      dsimp only
      split_ifs with h3 h4 h5
      · obtain ⟨rx1, hrx1⟩ := update_control_data_total (write s.buff.rx s.rx_i byte) s.rx
        rw [hrx1]
        exact ⟨_, rfl, rfl, rfl, rfl, rfl⟩
      · exact ⟨_, rfl, rfl, rfl, rfl, rfl⟩
      · exact ⟨_, rfl, rfl, rfl, rfl, rfl⟩
      · exact ⟨_, rfl, rfl, rfl, rfl, rfl⟩
  · rw [if_neg h1]
    split_ifs <;> exact ⟨s, rfl, rfl, rfl, rfl, rfl⟩

/-- On the wireless link (`MODE == 2`) `rx_uart` does nothing. -/
theorem rx_uart_mode2 (serial : Option Nat) (s : State) : rx_uart 2 serial s = some s := by
  unfold rx_uart
  rw [if_neg (by decide), if_pos rfl]

/-- The motion step writes to the Motion State, the move-status flag and the
wheel requests only. -/
theorem set_wheel_body_keeps (ms : Nat → Nat) (s : State) :
    (set_wheel_body ms s).rx = s.rx ∧ (set_wheel_body ms s).decoded = s.decoded ∧
    (set_wheel_body ms s).buff = s.buff ∧
    (set_wheel_body ms s).tx = { s.tx with mode_move := (set_wheel_body ms s).tx.mode_move } := by
  unfold set_wheel_body
  dsimp only
  split_ifs <;> exact ⟨rfl, rfl, rfl, rfl⟩

theorem rc_nrf_keeps (j : Option (Nat × Arr Int)) (ms : Nat → Nat) (s : State) :
    (rc_nrf j ms s).plat = s.plat ∧ (rc_nrf j ms s).wheel = s.wheel ∧
    (rc_nrf j ms s).tx = s.tx ∧ (rc_nrf j ms s).rx = s.rx ∧
    (rc_nrf j ms s).decoded = s.decoded ∧ (rc_nrf j ms s).buff = s.buff := by
  unfold rc_nrf
  split_ifs
  · exact ⟨rfl, rfl, rfl, rfl, rfl, rfl⟩
  · cases j with
    | none => exact ⟨rfl, rfl, rfl, rfl, rfl, rfl⟩
    | some pd => exact ⟨rfl, rfl, rfl, rfl, rfl, rfl⟩

theorem get_imu_keeps (imu : Option (Arr Int)) (s : State) :
    (get_imu imu s).plat = s.plat ∧ (get_imu imu s).wheel = s.wheel ∧
    (get_imu imu s).tx.mode_move = s.tx.mode_move ∧ (get_imu imu s).rx = s.rx ∧
    (get_imu imu s).decoded = s.decoded ∧ (get_imu imu s).buff = s.buff ∧
    (get_imu imu s).tmr = s.tmr := by
  unfold get_imu
  cases imu <;> exact ⟨rfl, rfl, rfl, rfl, rfl, rfl, rfl⟩

/-- Every task body other than the motion step returns and leaves the Motion
State, the wheel requests and the move-status flag as they were. -/
theorem task_body_keeps_motion (MODE : Nat) (e : Env) (k : TaskId) (s : State)
    (hk : k ≠ .set_wheel) :
    ∃ s1, task_body MODE e k s = some s1 ∧ s1.plat = s.plat ∧ s1.wheel = s.wheel ∧
      s1.tx.mode_move = s.tx.mode_move := by
  cases k
  case nrf_r =>
    exact ⟨_, rfl, (rc_nrf_keeps _ _ _).1, (rc_nrf_keeps _ _ _).2.1,
      by rw [(rc_nrf_keeps _ _ _).2.2.1]⟩
  case check_imu =>
    exact ⟨_, rfl, (get_imu_keeps _ _).1, (get_imu_keeps _ _).2.1, (get_imu_keeps _ _).2.2.1⟩
  case check_mltx => exact ⟨_, rfl, rfl, rfl, rfl⟩
  case check_lidar => exact ⟨_, rfl, rfl, rfl, rfl⟩
  case check_odo => exact ⟨_, rfl, rfl, rfl, rfl⟩
  case tx =>
    refine ⟨_, rfl, ?_, ?_, ?_⟩
    · exact (tx_uart_keeps _ _ _).1
    · exact (tx_uart_keeps _ _ _).2.1
    · rw [(tx_uart_keeps _ _ _).2.2.1]
  case rx =>
    obtain ⟨s1, h1, h2, h3, h4, _⟩ := rx_uart_keeps MODE e.serial s
    exact ⟨s1, h1, h2, h3, by rw [h4]⟩
  case set_wheel => exact absurd rfl hk
  case set_arm => exact ⟨_, rfl, rfl, rfl, rfl⟩
  case set_periph => exact ⟨_, rfl, rfl, rfl, rfl⟩

/-- On the wireless link (`MODE == 2`) every task body returns and leaves the
Command Record and the record of the decoder runs as they were. -/
theorem task_body_keeps_rx_mode2 (e : Env) (k : TaskId) (s : State) :
    ∃ s1, task_body 2 e k s = some s1 ∧ s1.rx = s.rx ∧ s1.decoded = s.decoded := by
  cases k
  case nrf_r =>
    exact ⟨_, rfl, (rc_nrf_keeps _ _ _).2.2.2.1, (rc_nrf_keeps _ _ _).2.2.2.2.1⟩
  case check_imu =>
    exact ⟨_, rfl, (get_imu_keeps _ _).2.2.2.1, (get_imu_keeps _ _).2.2.2.2.1⟩
  case check_mltx => exact ⟨_, rfl, rfl, rfl⟩
  case check_lidar => exact ⟨_, rfl, rfl, rfl⟩
  case check_odo => exact ⟨_, rfl, rfl, rfl⟩
  case tx =>
    refine ⟨_, rfl, ?_, ?_⟩
    · exact (tx_uart_keeps _ _ _).2.2.2.1
    · exact (tx_uart_keeps _ _ _).2.2.2.2.1
  case rx => exact ⟨s, rx_uart_mode2 _ _, rfl, rfl⟩
  case set_wheel =>
    exact ⟨_, rfl, (set_wheel_body_keeps _ _).1, (set_wheel_body_keeps _ _).2.1⟩
  case set_arm => exact ⟨_, rfl, rfl, rfl⟩
  case set_periph => exact ⟨_, rfl, rfl, rfl⟩

/-! ## Invariants of a kernel pass -/

/-- A property of the state that the stores to `tmr` and the record of the
bodies run do not affect, and that every task body preserves, is preserved by
a guarded block, which always returns. -/
theorem run_task_invariant (MODE : Nat) (Q : State → Prop)
    (htmr : ∀ (s : State) (t : Timer) (r : List TaskId), Q s → Q { s with tmr := t, ran := r })
    (hbody : ∀ (e : Env) (k : TaskId) (s : State), Q s →
      ∃ s1, task_body MODE e k s = some s1 ∧ Q s1)
    (e : Env) (k : TaskId) (s : State) (hQ : Q s) :
    ∃ s1, run_task MODE e k s = some s1 ∧ Q s1 := by
  unfold run_task
  split_ifs
  · exact hbody e k _ (htmr s _ _ hQ)
  · exact ⟨s, rfl, hQ⟩

/-- Such a property is preserved by a kernel pass, which always returns. -/
theorem loop_invariant (MODE : Nat) (Q : State → Prop)
    (htmr : ∀ (s : State) (t : Timer) (r : List TaskId), Q s → Q { s with tmr := t, ran := r })
    (hbody : ∀ (e : Env) (k : TaskId) (s : State), Q s →
      ∃ s1, task_body MODE e k s = some s1 ∧ Q s1)
    (e : Env) (s : State) (hQ : Q s) :
    ∃ s1, loop MODE e s = some s1 ∧ Q s1 := by
  have hrun := run_task_invariant MODE Q htmr hbody e
  unfold loop
  split_ifs with hmain h0 hpos
  · exact hrun _ _ (htmr s _ s.ran hQ)
  · obtain ⟨s1, e1, q1⟩ := hrun .check_imu _ (htmr s { s.tmr with main := e.millis_main 1 } s.ran hQ)
    obtain ⟨s2, e2, q2⟩ := hrun .check_mltx s1 q1
    obtain ⟨s3, e3, q3⟩ := hrun .check_lidar s2 q2
    obtain ⟨s4, e4, q4⟩ := hrun .check_odo s3 q3
    obtain ⟨s5, e5, q5⟩ := hrun .tx s4 q4
    obtain ⟨s6, e6, q6⟩ := hrun .rx s5 q5
    obtain ⟨s7, e7, q7⟩ := hrun .set_wheel s6 q6
    obtain ⟨s8, e8, q8⟩ := hrun .set_arm s7 q7
    obtain ⟨s9, e9, q9⟩ := hrun .set_periph s8 q8
    refine ⟨s9, ?_, q9⟩
    dsimp only
    simp only [Option.bind_eq_bind, bind, e1, e2, e3, e4, e5, e6, e7, e8, e9, Option.bind]
  · exact ⟨_, rfl, htmr s _ s.ran hQ⟩
  · exact ⟨s, rfl, hQ⟩

/-- Such a property is preserved by every run of the program, which always
returns. -/
theorem run_invariant (MODE : Nat) (Q : State → Prop)
    (htmr : ∀ (s : State) (t : Timer) (r : List TaskId), Q s → Q { s with tmr := t, ran := r })
    (hbody : ∀ (e : Env) (k : TaskId) (s : State), Q s →
      ∃ s1, task_body MODE e k s = some s1 ∧ Q s1)
    (es : List Env) : ∀ s : State, Q s → ∃ s1, run MODE s es = some s1 ∧ Q s1 := by
  induction es with
  | nil => intro s hQ; exact ⟨s, rfl, hQ⟩
  | cons e es ih =>
    intro s hQ
    obtain ⟨s1, e1, q1⟩ := loop_invariant MODE Q htmr hbody e s hQ
    obtain ⟨s2, e2, q2⟩ := ih s1 q1
    exact ⟨s2, by simp only [run, e1, Option.bind, e2], q2⟩

/-! ## C14: the inbound codec on the two links -/

/-- C14 fails on the code for the wireless link: with `MODE == 2` the body of
`rx_uart` is empty and `tx_uart` copies every byte of an acknowledgement
payload to `buff.rx[0]`, so no kernel pass ever runs the decoder or changes
the Command Record.  In a pass at 100 ms from boot, with the acknowledgement
`# FF 00 00 5A 00 5A 00 5A 00 FF FF` waiting, the transmit and receive tasks
run, `move_type` stays -1, no decode is made and `buff.rx` holds `FF 00 ..`,
whereas the frame decodes to `move_type = 0`. -/
theorem wireless_frame_not_decoded :
    (∀ (e : Env) (s : State),
      ∃ s1, loop 2 e s = some s1 ∧ s1.rx = s.rx ∧ s1.decoded = s.decoded) ∧
    (loop 2 { millis_main := fun _ => 100, millis := fun _ _ => 100,
              nrf_ack := [bytes [35, 255, 0, 0, 90, 0, 90, 0, 90, 0, 255, 255]] }
        (setup {})).map
        (fun s => (s.ran, s.rx.move_type, s.decoded, s.buff.rx 0, s.buff.rx 1))
      = some ([.check_imu, .check_mltx, .check_lidar, .check_odo, .tx, .rx, .set_wheel,
                .set_arm, .set_periph], -1, [], 255, 0) ∧
    (update_control_data (bytes [255, 0, 0, 90, 0, 90, 0, 90, 0, 255, 255]) {}).map
        (fun r => r.move_type) = some 0 := by
  refine ⟨?_, by decide, by decide⟩
  intro e s
  exact loop_invariant 2 (fun s1 => s1.rx = s.rx ∧ s1.decoded = s.decoded)
    (fun _ _ _ h => h)
    (fun e k s1 h => by
      obtain ⟨s2, h1, h2, h3⟩ := task_body_keeps_rx_mode2 e k s1
      exact ⟨s2, h1, h2.trans h.1, h3.trans h.2⟩)
    e s ⟨rfl, rfl⟩

/-! ## C15: an unknown move-type -/

/-- A motion step on a move in progress whose type is none of 0..4 changes
nothing. -/
theorem set_wheel_body_unknown (ms : Nat → Nat) (s : State)
    (hd : s.plat.is_done_move = false)
    (ht : s.plat.target_type < 0 ∨ 4 < s.plat.target_type) : set_wheel_body ms s = s := by
  have h0 : ¬ s.plat.target_type = 0 := by omega
  have h1 : ¬ s.plat.target_type = 1 := by omega
  have h2 : ¬ s.plat.target_type = 2 := by omega
  have h3 : ¬ s.plat.target_type = 3 := by omega
  have h4 : ¬ s.plat.target_type = 4 := by omega
  unfold set_wheel_body
  rw [if_neg (by rw [hd]; decide), if_neg h0, if_neg h1, if_neg h2, if_neg h3, if_neg h4]

/-- From such a state every run of the program returns with the Motion State
and the wheel requests as they were. -/
theorem run_unknown_move_type (MODE : Nat) (s : State) (hd : s.plat.is_done_move = false)
    (ht : s.plat.target_type < 0 ∨ 4 < s.plat.target_type) (es : List Env) :
    ∃ s1, run MODE s es = some s1 ∧ s1.plat = s.plat ∧ s1.wheel = s.wheel := by
  refine run_invariant MODE (fun s1 => s1.plat = s.plat ∧ s1.wheel = s.wheel)
    (fun _ _ _ h => h) ?_ es s ⟨rfl, rfl⟩
  intro e k s1 h
  by_cases hk : k = .set_wheel
  · subst hk
    refine ⟨_, rfl, ?_⟩
    rw [set_wheel_body_unknown _ s1 (by rw [h.1]; exact hd) (by rw [h.1]; exact ht)]
    exact h
  · obtain ⟨s2, h1, h2, h3, _⟩ := task_body_keeps_motion MODE e k s1 hk
    exact ⟨s2, h1, h2.trans h.1, h3.trans h.2⟩

/-- C15 as stated fails: with active move-type 7 in progress and the valid
command STOP in the Command Record, a motion step latches nothing, and after
every run of the program the active move-type is still 7 and `is_done_move`
still false. -/
theorem unknown_move_type_never_latches :
    ((set_wheel_body (fun _ => 1000)
        { plat := { target_type := 7 }, rx := { move_type := 0, val_move := 0 } }).plat.target_type,
      (set_wheel_body (fun _ => 1000)
        { plat := { target_type := 7 }, rx := { move_type := 0, val_move := 0 } }).plat.is_done_move)
      = (7, false) ∧
    ∀ (MODE : Nat) (es : List Env),
      ∃ s1, run MODE { plat := { target_type := 7 }, rx := { move_type := 0, val_move := 0 } } es
          = some s1 ∧
        s1.plat.target_type = 7 ∧ s1.plat.is_done_move = false := by
  refine ⟨by decide, ?_⟩
  intro MODE es
  obtain ⟨s1, h1, h2, _⟩ := run_unknown_move_type MODE
    { plat := { target_type := 7 }, rx := { move_type := 0, val_move := 0 } } rfl
    (Or.inr (by decide)) es
  exact ⟨s1, h1, by rw [h2], by rw [h2]⟩

/-- C15 (amended): for every Motion State with `is_done_move = false` whose
active move-type is outside 0..4, a motion step requests no wheel setpoint and
does not set `is_done_move` (it changes nothing), and no later step latches a
command, whatever the Command Record holds: after every run of the program
the Motion State and the wheel requests are as they were, so the stall does
not end. -/
theorem unknown_move_type_stalls (MODE : Nat) (s : State)
    (hd : s.plat.is_done_move = false)
    (ht : s.plat.target_type < 0 ∨ 4 < s.plat.target_type) :
    (∀ ms : Nat → Nat, (set_wheel_body ms s).wheel = s.wheel ∧
      (set_wheel_body ms s).plat.is_done_move = false ∧ set_wheel_body ms s = s) ∧
    (∀ (rx : Receive) (ms : Nat → Nat),
      (set_wheel_body ms { s with rx := rx }).plat = s.plat) ∧
    ∀ es : List Env, ∃ s1, run MODE s es = some s1 ∧ s1.plat = s.plat ∧ s1.wheel = s.wheel := by
  refine ⟨fun ms => ?_, fun rx ms => ?_, run_unknown_move_type MODE s hd ht⟩
  · rw [set_wheel_body_unknown ms s hd ht]
    exact ⟨rfl, hd, rfl⟩
  · rw [set_wheel_body_unknown ms { s with rx := rx } hd ht]

/-- C15 witness: the sentinel move-type -1 in progress. -/
theorem unknown_move_type_stalls_witness :
    (({ plat := { target_type := -1 } } : State).plat.is_done_move = false ∧
      (({ plat := { target_type := -1 } } : State).plat.target_type < 0 ∨
        4 < ({ plat := { target_type := -1 } } : State).plat.target_type)) ∧
    ((∀ ms : Nat → Nat,
      (set_wheel_body ms { plat := { target_type := -1 } }).wheel
        = ({ plat := { target_type := -1 } } : State).wheel ∧
      (set_wheel_body ms { plat := { target_type := -1 } }).plat.is_done_move = false ∧
      set_wheel_body ms { plat := { target_type := -1 } } = { plat := { target_type := -1 } }) ∧
    (∀ (rx : Receive) (ms : Nat → Nat),
      (set_wheel_body ms { ({ plat := { target_type := -1 } } : State) with rx := rx }).plat
        = ({ plat := { target_type := -1 } } : State).plat) ∧
    ∀ es : List Env, ∃ s1, run 1 { plat := { target_type := -1 } } es = some s1 ∧
      s1.plat = ({ plat := { target_type := -1 } } : State).plat ∧
      s1.wheel = ({ plat := { target_type := -1 } } : State).wheel) :=
  ⟨⟨rfl, Or.inl (by decide)⟩,
    unknown_move_type_stalls 1 { plat := { target_type := -1 } } rfl (Or.inl (by decide))⟩

/-! ## C17: the move-status flag -/

/-- What a motion step does to `is_done_move` and the move-status flag: a
latch gives (false, 0); a step of a move in progress gives (true, 1) or
leaves both as they were. -/
theorem set_wheel_body_status (ms : Nat → Nat) (s : State) :
    (s.plat.is_done_move = true →
      (set_wheel_body ms s).plat.is_done_move = false ∧ (set_wheel_body ms s).tx.mode_move = 0) ∧
    (s.plat.is_done_move = false →
      ((set_wheel_body ms s).plat.is_done_move = true ∧ (set_wheel_body ms s).tx.mode_move = 1) ∨
      ((set_wheel_body ms s).plat.is_done_move = false ∧
        (set_wheel_body ms s).tx.mode_move = s.tx.mode_move)) := by
  unfold set_wheel_body
  by_cases hd : s.plat.is_done_move = true
  · rw [if_pos hd]
    exact ⟨fun _ => ⟨rfl, rfl⟩, fun h => absurd hd (by rw [h]; decide)⟩
  · rw [if_neg hd]
    have hf : s.plat.is_done_move = false := by simpa using hd
    refine ⟨fun h => absurd h hd, fun _ => ?_⟩
    dsimp only
    split_ifs <;> first | exact Or.inl ⟨rfl, rfl⟩ | exact Or.inr ⟨hf, rfl⟩

/-- Both writers of the move-status flag keep it in step with `is_done_move`
(the latch writes false and 0, the exit of a move true and 1) and no other task
writes either: from a state in which the flag is 1 when `is_done_move` is true
and 0 when it is false, every run of the program returns with a state of that
kind. -/
theorem move_status_kept_in_step (MODE : Nat) (es : List Env) (s : State)
    (h1 : s.plat.is_done_move = true → s.tx.mode_move = 1)
    (h0 : s.plat.is_done_move = false → s.tx.mode_move = 0) :
    ∃ s1, run MODE s es = some s1 ∧
      (s1.plat.is_done_move = true → s1.tx.mode_move = 1) ∧
      (s1.plat.is_done_move = false → s1.tx.mode_move = 0) := by
  refine run_invariant MODE
    (fun s1 => (s1.plat.is_done_move = true → s1.tx.mode_move = 1) ∧
      (s1.plat.is_done_move = false → s1.tx.mode_move = 0))
    (fun _ _ _ h => h) ?_ es s ⟨h1, h0⟩
  intro e k s h
  by_cases hk : k = .set_wheel
  · subst hk
    refine ⟨_, rfl, ?_⟩
    have hs := set_wheel_body_status (fun n => e.millis .set_wheel (n + 2)) s
    cases hdone : s.plat.is_done_move with
    | true =>
      obtain ⟨g1, g2⟩ := hs.1 hdone
      exact ⟨fun h3 => absurd h3 (by rw [g1]; decide), fun _ => g2⟩
    | false =>
      rcases hs.2 hdone with ⟨g1, g2⟩ | ⟨g1, g2⟩
      · exact ⟨fun _ => g2, fun h3 => absurd g1 (by rw [h3]; decide)⟩
      · exact ⟨fun h3 => absurd h3 (by rw [g1]; decide), fun _ => by rw [g2]; exact h.2 hdone⟩
  · obtain ⟨s2, g1, g2, _, g4⟩ := task_body_keeps_motion MODE e k s hk
    refine ⟨s2, g1, ?_⟩
    show (s2.plat.is_done_move = true → s2.tx.mode_move = 1) ∧
      (s2.plat.is_done_move = false → s2.tx.mode_move = 0)
    rw [g2, g4]
    exact h

/-- C17 fails on the code in the boot state: `is_done_move` is false while the
move-status flag holds its initialiser 9, not 0, the value that the comment on
`mode_move` gives for a move being executed (1 = done, 0 = executing). -/
theorem boot_move_status_is_9 :
    ((setup {}).plat.is_done_move, (setup {}).tx.mode_move) = (false, 9) := by
  decide

/-! ## C18: what the frame of a pass encodes -/

/-- C19 fails on the code at move-value 0: case 3 tests `plat.target_val > 0`,
so a rotation in place by 0 requests the clockwise pair
`(forw[0], backw[1]) = (100, 100)` and not the counter-clockwise pair
`(backw[0], forw[1]) = (-100, -100)`; for the other values the pairs are as
claimed. -/
theorem rotate_in_place_zero_is_clockwise :
    (set_wheel_body (fun _ => 0) { plat := { target_type := 3, target_val := 0 } }).wheel
      = [(100, 100)] ∧
    (({} : Platform).forw 0, ({} : Platform).backw 1) = (100, 100) ∧
    (({} : Platform).backw 0, ({} : Platform).forw 1) = (-100, -100) ∧
    ∀ (ms : Nat → Nat) (s : State), s.plat.is_done_move = false → s.plat.target_type = 3 →
      (0 < s.plat.target_val →
        (set_wheel_body ms s).wheel = s.wheel ++ [(s.plat.backw 0, s.plat.forw 1)]) ∧
      (s.plat.target_val ≤ 0 →
        (set_wheel_body ms s).wheel = s.wheel ++ [(s.plat.forw 0, s.plat.backw 1)]) := by
  refine ⟨by decide, by decide, by decide, ?_⟩
  intro ms s hd ht
  have h0 : ¬ s.plat.target_type = 0 := by omega
  have h1 : ¬ s.plat.target_type = 1 := by omega
  have h2 : ¬ s.plat.target_type = 2 := by omega
  unfold set_wheel_body
  rw [if_neg (by rw [hd]; decide), if_neg h0, if_neg h1, if_neg h2, if_pos ht]
  constructor
  · intro hpos
    rw [if_pos hpos]
    dsimp only
    split_ifs <;> rfl
  · intro hle
    rw [if_neg (by omega)]
    dsimp only
    split_ifs <;> rfl

/-! ## C20: position of the heading in the outbound frame -/

/-- C20 as stated fails: after `get_imu` has stored yaw `0x1234`, pitch
`0x0506` and roll `0x090A`, the frame holds roll at bytes 28-29, pitch at
30-31 and yaw at 32-33; bytes 34-35 hold `odo_l` (1 at boot). -/
theorem yaw_not_at_bytes_34_35 :
    (List.range' 28 8).map
        (fill_tx_arr (get_imu (some (fun j => [4660, 1286, 2314].getD j 0)) {}).tx {}).tx
      = [0x0A, 0x09, 0x06, 0x05, 0x34, 0x12, 1, 0] := by
  rw [fill_tx_arr_tx]
  decide

/-- C20 (amended): `get_imu` stores yaw (`ypr[0]`) in `tx.ang_z`, pitch in
`tx.ang_y` and roll in `tx.ang_x`; `fill_tx_arr` serializes `ang_x` (roll) at
bytes 28-29, `ang_y` (pitch) at bytes 30-31 and `ang_z` (yaw), the heading
that the motion step snapshots when it latches a command, in the third of the
three orientation slots, bytes 32-33. -/
theorem heading_in_third_orientation_slot (ypr : Arr Int) (s : State) (buff : Buff) :
    (get_imu (some ypr) s).tx.ang_z = ypr 0 ∧
    (get_imu (some ypr) s).tx.ang_y = ypr 1 ∧
    (get_imu (some ypr) s).tx.ang_x = ypr 2 ∧
    (fill_tx_arr (get_imu (some ypr) s).tx buff).tx 28 = spec_twos16 (ypr 2) % 256 ∧
    (fill_tx_arr (get_imu (some ypr) s).tx buff).tx 29 = spec_twos16 (ypr 2) / 256 ∧
    (fill_tx_arr (get_imu (some ypr) s).tx buff).tx 30 = spec_twos16 (ypr 1) % 256 ∧
    (fill_tx_arr (get_imu (some ypr) s).tx buff).tx 31 = spec_twos16 (ypr 1) / 256 ∧
    (fill_tx_arr (get_imu (some ypr) s).tx buff).tx 32 = spec_twos16 (ypr 0) % 256 ∧
    (fill_tx_arr (get_imu (some ypr) s).tx buff).tx 33 = spec_twos16 (ypr 0) / 256 ∧
    ∀ (ms : Nat → Nat) (s1 : State), s1.plat.is_done_move = true →
      (set_wheel_body ms s1).plat.loc_init_ang 2 = s1.tx.ang_z := by
  refine ⟨rfl, rfl, rfl, ?_, ?_, ?_, ?_, ?_, ?_, ?_⟩
  · rw [fill_tx_arr_tx]; exact to_u8_lo _
  · rw [fill_tx_arr_tx]; exact to_u8_hi _
  · rw [fill_tx_arr_tx]; exact to_u8_lo _
  · rw [fill_tx_arr_tx]; exact to_u8_hi _
  · rw [fill_tx_arr_tx]; exact to_u8_lo _
  · rw [fill_tx_arr_tx]; exact to_u8_hi _
  · intro ms s1 hd
    unfold set_wheel_body
    rw [if_pos hd]
    rfl

/-! ## C21: what the checksum depends on -/

theorem testBit_mod_256 (x i : Nat) : (x % 256).testBit i = (decide (i < 8) && x.testBit i) :=
  Nat.testBit_mod_two_pow x 8 i

theorem testBit_and_15 (x i : Nat) : (x &&& 15).testBit i = (x.testBit i && decide (i < 4)) := by
  rw [Nat.testBit_and]
  exact congrArg _ (Nat.testBit_two_pow_sub_one 4 i)

theorem testBit_and_1 (x i : Nat) : (x &&& 1).testBit i = (x.testBit i && decide (i < 1)) := by
  rw [Nat.testBit_and]
  exact congrArg _ (Nat.testBit_two_pow_sub_one 1 i)

/-- One pass of the loop body keeps of the accumulator its lowest bit only. -/
theorem hash_step_eq_tail (acc p b : Nat) (h : acc.testBit 0 = p.testBit 0) :
    hash_step acc b = spec_hash_tail p b := by
  apply Nat.eq_of_testBit_eq
  intro i
  unfold hash_step spec_hash_tail
  simp only [testBit_mod_256, Nat.testBit_or, Nat.testBit_shiftLeft, testBit_and_15,
    testBit_and_1]
  rcases Nat.lt_or_ge i 8 with hi | hi
  · interval_cases i <;> simp [h]
  · have : ¬ i < 8 := by omega
    simp [this]

/-- The lowest bit of the accumulator after a pass is that of the byte read. -/
theorem hash_step_testBit_zero (acc p : Nat) : (hash_step acc p).testBit 0 = p.testBit 0 := by
  unfold hash_step
  simp only [testBit_mod_256, Nat.testBit_or, Nat.testBit_shiftLeft]
  simp

theorem foldl_hash_step_tail (init : List Nat) (acc p b : Nat) :
    (init ++ [p, b]).foldl hash_step acc = spec_hash_tail p b := by
  rw [List.foldl_append]
  exact hash_step_eq_tail _ p b (hash_step_testBit_zero _ p)

theorem slice_last_two (data : Arr Nat) (start_i end_i : Nat) (h : start_i + 2 ≤ end_i) :
    slice data start_i end_i
      = slice data start_i (end_i - 2) ++ [data (end_i - 2), data (end_i - 1)] := by
  unfold slice
  obtain ⟨n, hn⟩ : ∃ n, end_i - start_i = n + 1 + 1 := ⟨end_i - start_i - 2, by omega⟩
  rw [hn, List.range'_1_concat, List.range'_1_concat, show end_i - 2 - start_i = n by omega]
  simp only [List.map_append, List.map_cons, List.map_nil, List.append_assoc, List.cons_append,
    List.nil_append]
  rw [show start_i + n = end_i - 2 by omega, show start_i + (n + 1) = end_i - 1 by omega]

/-- The checksum of a range of two bytes or more with bounds up to 255. -/
theorem hash_eq_tail (data : Arr Nat) (start_i end_i : Nat) (h : start_i + 2 ≤ end_i)
    (hend : end_i ≤ 255) :
    hash data start_i end_i = some (spec_hash_tail (data (end_i - 2)) (data (end_i - 1))) := by
  rw [hash_eq_fold data start_i end_i (by omega) hend, slice_last_two data start_i end_i h,
    foldl_hash_step_tail]

theorem spec_hash_tail_lsb (p q b : Nat) (h : p % 2 = q % 2) :
    spec_hash_tail p b = spec_hash_tail q b := by
  unfold spec_hash_tail
  rw [Nat.and_one_is_mod, Nat.and_one_is_mod, h]

/-- C21 as stated fails for ranges that end above 255: on the two-byte range
`[254, 256)` the 8-bit loop counter of `hash` never reaches the bound and
`hash` returns no value. -/
theorem hash_two_byte_range_diverges : hash (fun _ => 1) 254 256 = none :=
  hash_loop_diverges _ 256 (by decide) 257 254 0 (by decide)

/-- C21 (amended): for every byte array and every range `[start_i, end_i)` of
length at least 2 with bounds up to 255, `hash` depends only on the last byte
`b` and on the lowest bit of the byte `p` before it:
`hash = ((((p & 1) << 3) | (b & 0x0F)) << 4 | b) mod 256`.  Consequently, for
every checksum-valid inbound buffer, a buffer with the same checksum byte and
the same byte 10, any bytes 1..8, and a byte 9 with the same lowest bit passes
the validation of `update_control_data` and is decoded. -/
theorem hash_depends_on_tail (data : Arr Nat) (start_i end_i : Nat)
    (h : start_i + 2 ≤ end_i) (hend : end_i ≤ 255) :
    hash data start_i end_i = some (spec_hash_tail (data (end_i - 2)) (data (end_i - 1))) ∧
    (∀ data' : Arr Nat, data' (end_i - 1) = data (end_i - 1) →
      data' (end_i - 2) % 2 = data (end_i - 2) % 2 →
      hash data' start_i end_i = hash data start_i end_i) ∧
    ∀ (buf buf' : Arr Nat) (rx : Receive), hash buf 1 11 = some (buf 0) →
      buf' 0 = buf 0 → buf' 10 = buf 10 → buf' 9 % 2 = buf 9 % 2 →
      update_control_data buf' rx =
        some { init_sb := rx.init_sb
               hsum := buf' 0
               move_type := to_int8 (buf' 1)
               val_move := to_int8 (buf' 2)
               arm_q1 := to_int16 (buf' 3) (buf' 4)
               arm_q2 := to_int16 (buf' 5) (buf' 6)
               arm_q3 := to_int16 (buf' 7) (buf' 8)
               arm_mode := to_int8 (buf' 9)
               auido_mode := to_int8 (buf' 10) } := by
  refine ⟨hash_eq_tail data start_i end_i h hend, ?_, ?_⟩
  · intro data' hb hp
    rw [hash_eq_tail data' start_i end_i h hend, hash_eq_tail data start_i end_i h hend, hb,
      spec_hash_tail_lsb _ _ _ hp]
  · intro buf buf' rx hvalid h0 h10 h9
    have hv : hash buf' 1 11 = some (buf' 0) := by
      rw [hash_eq_tail buf' 1 11 (by decide) (by decide), h0, ← hvalid,
        hash_eq_tail buf 1 11 (by decide) (by decide)]
      show some (spec_hash_tail (buf' 9) (buf' 10)) = some (spec_hash_tail (buf 9) (buf 10))
      rw [h10, spec_hash_tail_lsb _ _ _ h9]
    unfold update_control_data
    rw [hv]
    simp only [Option.bind_eq_bind, Option.some_bind, if_true, Option.pure_def]

/-- C21 witness: the valid buffer `FF 00 00 5A 00 5A 00 5A 00 FF FF`. -/
theorem hash_depends_on_tail_witness :
    (1 + 2 ≤ 11 ∧ 11 ≤ 255) ∧
    (hash (bytes [255, 0, 0, 90, 0, 90, 0, 90, 0, 255, 255]) 1 11 = some (spec_hash_tail ((bytes [255, 0, 0, 90, 0, 90, 0, 90, 0, 255, 255]) (11 - 2)) ((bytes [255, 0, 0, 90, 0, 90, 0, 90, 0, 255, 255]) (11 - 1))) ∧
    (∀ data' : Arr Nat, data' (11 - 1) = (bytes [255, 0, 0, 90, 0, 90, 0, 90, 0, 255, 255]) (11 - 1) →
      data' (11 - 2) % 2 = (bytes [255, 0, 0, 90, 0, 90, 0, 90, 0, 255, 255]) (11 - 2) % 2 →
      hash data' 1 11 = hash (bytes [255, 0, 0, 90, 0, 90, 0, 90, 0, 255, 255]) 1 11) ∧
    ∀ (buf buf' : Arr Nat) (rx : Receive), hash buf 1 11 = some (buf 0) →
      buf' 0 = buf 0 → buf' 10 = buf 10 → buf' 9 % 2 = buf 9 % 2 →
      update_control_data buf' rx =
        some { init_sb := rx.init_sb
               hsum := buf' 0
               move_type := to_int8 (buf' 1)
               val_move := to_int8 (buf' 2)
               arm_q1 := to_int16 (buf' 3) (buf' 4)
               arm_q2 := to_int16 (buf' 5) (buf' 6)
               arm_q3 := to_int16 (buf' 7) (buf' 8)
               arm_mode := to_int8 (buf' 9)
               auido_mode := to_int8 (buf' 10) }) :=
  ⟨⟨by decide, by decide⟩, hash_depends_on_tail (bytes [255, 0, 0, 90, 0, 90, 0, 90, 0, 255, 255]) 1 11 (by decide) (by decide)⟩

/-! ## C22: the remote link after a timeout -/

/-- Without a wrap of the 32-bit clock the elapsed time only grows. -/
theorem sub_u32_mono (t now later : Nat) (hle : t ≤ now) (hl : now ≤ later)
    (h32 : later < 4294967296) : now - t ≤ sub_u32 later t := by
  unfold sub_u32
  omega

/-- The timeout branch of `rc_nrf` writes the joystick record only. -/
theorem rc_nrf_timeout_branch (j : Option (Nat × Arr Int)) (ms : Nat → Nat) (s : State)
    (hto : sub_u32 (ms 0) s.tmr.check_nrf > PRD.check_nrf) :
    (rc_nrf j ms s).tmr = s.tmr ∧
    (rc_nrf j ms s).rec_nrf.x1 = 512 ∧ (rc_nrf j ms s).rec_nrf.y1 = 512 ∧
    (rc_nrf j ms s).rec_nrf.x2 = 512 ∧ (rc_nrf j ms s).rec_nrf.y2 = 512 ∧
    (rc_nrf j ms s).rec_nrf.btn1 = 0 ∧ (rc_nrf j ms s).rec_nrf.btn2 = 0 := by
  unfold rc_nrf
  rw [if_pos hto]
  exact ⟨rfl, rfl, rfl, rfl, rfl, rfl, rfl⟩

/-- C22: in `rc_nrf` the last-packet timestamp `tmr.check_nrf` is left as it
is by the timeout branch; so for every state in which `now - tmr.check_nrf`
exceeds the link timeout, after every sequence of one or more later calls, each
at a clock reading `now' ≥ now` below `2^32` (no wrap of the clock) and with or
without a packet available, the timestamp is still the same, every one of the
calls has taken the timeout branch and the joystick record is neutral
(512, 512, 512, 512, 0, 0). -/
theorem rc_nrf_never_recovers (s : State) (now : Nat) (hle : s.tmr.check_nrf ≤ now)
    (hto : now - s.tmr.check_nrf > PRD.check_nrf)
    (calls : List (Option (Nat × Arr Int) × (Nat → Nat)))
    (hlater : ∀ c ∈ calls, now ≤ c.2 0 ∧ c.2 0 < 4294967296) :
    (∀ c ∈ calls, sub_u32 (c.2 0) s.tmr.check_nrf > PRD.check_nrf) ∧
    (rc_nrf_calls s calls).tmr.check_nrf = s.tmr.check_nrf ∧
    (calls ≠ [] →
      (rc_nrf_calls s calls).rec_nrf.x1 = 512 ∧ (rc_nrf_calls s calls).rec_nrf.y1 = 512 ∧
      (rc_nrf_calls s calls).rec_nrf.x2 = 512 ∧ (rc_nrf_calls s calls).rec_nrf.y2 = 512 ∧
      (rc_nrf_calls s calls).rec_nrf.btn1 = 0 ∧ (rc_nrf_calls s calls).rec_nrf.btn2 = 0) := by
  have hbranch : ∀ c ∈ calls, sub_u32 (c.2 0) s.tmr.check_nrf > PRD.check_nrf := by
    intro c hc
    have h1 := sub_u32_mono s.tmr.check_nrf now (c.2 0) hle (hlater c hc).1 (hlater c hc).2
    omega
  refine ⟨hbranch, ?_⟩
  clear hlater hto hle
  induction calls generalizing s with
  | nil => exact ⟨rfl, fun h => absurd rfl h⟩
  | cons c rest ih =>
    have hc := hbranch c (List.mem_cons_self _ _)
    obtain ⟨ht, hx1, hy1, hx2, hy2, hb1, hb2⟩ := rc_nrf_timeout_branch c.1 c.2 s hc
    have ih1 := ih (rc_nrf c.1 c.2 s) (by
      intro d hd
      rw [ht]
      exact hbranch d (List.mem_cons_of_mem _ hd))
    simp only [rc_nrf_calls]
    refine ⟨by rw [ih1.1, ht], fun _ => ?_⟩
    cases rest with
    | nil => exact ⟨hx1, hy1, hx2, hy2, hb1, hb2⟩
    | cons d rest1 => exact ih1.2 (List.cons_ne_nil _ _)

/-- C22 witness: last packet at 0 ms, silence until 101 ms, then calls at 101,
150 and 200 ms with the same packet available at each. -/
theorem rc_nrf_never_recovers_witness :
    (({} : State).tmr.check_nrf ≤ 101 ∧ 101 - ({} : State).tmr.check_nrf > PRD.check_nrf ∧
      ∀ c ∈ [(some (1, fun (_ : Nat) => (7 : Int)), fun (_ : Nat) => 101),
              (some (1, fun (_ : Nat) => (7 : Int)), fun (_ : Nat) => 150),
              (some (1, fun (_ : Nat) => (7 : Int)), fun (_ : Nat) => 200)],
        101 ≤ c.2 0 ∧ c.2 0 < 4294967296) ∧
    ((∀ c ∈ [(some (1, fun (_ : Nat) => (7 : Int)), fun (_ : Nat) => 101),
              (some (1, fun (_ : Nat) => (7 : Int)), fun (_ : Nat) => 150),
              (some (1, fun (_ : Nat) => (7 : Int)), fun (_ : Nat) => 200)],
        sub_u32 (c.2 0) ({} : State).tmr.check_nrf > PRD.check_nrf) ∧
    (rc_nrf_calls {} [(some (1, fun (_ : Nat) => (7 : Int)), fun (_ : Nat) => 101),
              (some (1, fun (_ : Nat) => (7 : Int)), fun (_ : Nat) => 150),
              (some (1, fun (_ : Nat) => (7 : Int)), fun (_ : Nat) => 200)]).tmr.check_nrf
      = ({} : State).tmr.check_nrf ∧
    ([(some (1, fun (_ : Nat) => (7 : Int)), fun (_ : Nat) => 101),
              (some (1, fun (_ : Nat) => (7 : Int)), fun (_ : Nat) => 150),
              (some (1, fun (_ : Nat) => (7 : Int)), fun (_ : Nat) => 200)]
        ≠ ([] : List (Option (Nat × Arr Int) × (Nat → Nat))) →
      (rc_nrf_calls {} [(some (1, fun (_ : Nat) => (7 : Int)), fun (_ : Nat) => 101),
              (some (1, fun (_ : Nat) => (7 : Int)), fun (_ : Nat) => 150),
              (some (1, fun (_ : Nat) => (7 : Int)), fun (_ : Nat) => 200)]).rec_nrf.x1 = 512 ∧
      (rc_nrf_calls {} [(some (1, fun (_ : Nat) => (7 : Int)), fun (_ : Nat) => 101),
              (some (1, fun (_ : Nat) => (7 : Int)), fun (_ : Nat) => 150),
              (some (1, fun (_ : Nat) => (7 : Int)), fun (_ : Nat) => 200)]).rec_nrf.y1 = 512 ∧
      (rc_nrf_calls {} [(some (1, fun (_ : Nat) => (7 : Int)), fun (_ : Nat) => 101),
              (some (1, fun (_ : Nat) => (7 : Int)), fun (_ : Nat) => 150),
              (some (1, fun (_ : Nat) => (7 : Int)), fun (_ : Nat) => 200)]).rec_nrf.x2 = 512 ∧
      (rc_nrf_calls {} [(some (1, fun (_ : Nat) => (7 : Int)), fun (_ : Nat) => 101),
              (some (1, fun (_ : Nat) => (7 : Int)), fun (_ : Nat) => 150),
              (some (1, fun (_ : Nat) => (7 : Int)), fun (_ : Nat) => 200)]).rec_nrf.y2 = 512 ∧
      (rc_nrf_calls {} [(some (1, fun (_ : Nat) => (7 : Int)), fun (_ : Nat) => 101),
              (some (1, fun (_ : Nat) => (7 : Int)), fun (_ : Nat) => 150),
              (some (1, fun (_ : Nat) => (7 : Int)), fun (_ : Nat) => 200)]).rec_nrf.btn1 = 0 ∧
      (rc_nrf_calls {} [(some (1, fun (_ : Nat) => (7 : Int)), fun (_ : Nat) => 101),
              (some (1, fun (_ : Nat) => (7 : Int)), fun (_ : Nat) => 150),
              (some (1, fun (_ : Nat) => (7 : Int)), fun (_ : Nat) => 200)]).rec_nrf.btn2
        = 0)) :=
  ⟨⟨by decide, by decide, by
      intro c hc
      simp only [List.mem_cons, List.mem_singleton, List.not_mem_nil, or_false] at hc
      rcases hc with rfl | rfl | rfl <;> exact ⟨by decide, by decide⟩⟩,
    rc_nrf_never_recovers {} 101 (by decide) (by decide) _ (by
      intro c hc
      simp only [List.mem_cons, List.mem_singleton, List.not_mem_nil, or_false] at hc
      rcases hc with rfl | rfl | rfl <;> exact ⟨by decide, by decide⟩)⟩

/-! ## C23: the sentinel command is latched -/

theorem motion_steps_append (l1 l2 : List Nat) : ∀ s : State,
    motion_steps s (l1 ++ l2) = motion_steps (motion_steps s l1) l2 := by
  induction l1 with
  | nil => intro s; rfl
  | cons t l ih => intro s; exact ih _

/-- A step of a STOP in progress, started at 0 with budget 500, at a clock
reading up to 500: the zero-speed pair is requested, nothing else changes. -/
theorem stop_step_early (now : Nat) (s : State) (hd : s.plat.is_done_move = false)
    (ht : s.plat.target_type = 0) (h0 : s.plat.tmr 0 = 0) (hp : s.plat.prd 0 = 500)
    (hnow : now ≤ 500) :
    set_wheel_body (fun _ => now) s = set_PWM_wheel (s.plat.stop 0) (s.plat.stop 1) s := by
  unfold set_wheel_body
  rw [if_neg (by rw [hd]; decide), if_pos ht]
  dsimp only
  have e2 : (set_PWM_wheel (s.plat.stop 0) (s.plat.stop 1) s).plat = s.plat := rfl
  have e0 : (0 : Int).toNat = 0 := rfl
  rw [e2, ht, e0, h0, hp, if_neg (by unfold sub_u32; omega)]

/-- The same step at a clock reading above 500: the move ends. -/
theorem stop_step_exit (now : Nat) (s : State) (hd : s.plat.is_done_move = false)
    (ht : s.plat.target_type = 0) (h0 : s.plat.tmr 0 = 0) (hp : s.plat.prd 0 = 500)
    (hnow : 500 < now) (h32 : now < 4294967296) :
    set_wheel_body (fun _ => now) s
      = move_done (set_PWM_wheel (s.plat.stop 0) (s.plat.stop 1) s) := by
  unfold set_wheel_body
  rw [if_neg (by rw [hd]; decide), if_pos ht]
  dsimp only
  have e2 : (set_PWM_wheel (s.plat.stop 0) (s.plat.stop 1) s).plat = s.plat := rfl
  have e0 : (0 : Int).toNat = 0 := rfl
  rw [e2, ht, e0, h0, hp, if_pos (by unfold sub_u32; omega)]

/-- The boot STOP while the clock readings stay up to 500. -/
theorem motion_steps_early (early : List Nat) (hearly : ∀ x ∈ early, x ≤ 500) :
    ∀ s : State, s.plat.is_done_move = false → s.plat.target_type = 0 → s.plat.tmr 0 = 0 →
      s.plat.prd 0 = 500 → s.plat.stop 0 = 0 → s.plat.stop 1 = 0 →
      (motion_steps s early).plat = s.plat ∧ (motion_steps s early).rx = s.rx ∧
      (motion_steps s early).wheel = s.wheel ++ List.replicate early.length (0, 0) := by
  induction early with
  | nil => intro s _ _ _ _ _ _; exact ⟨rfl, rfl, by simp [motion_steps]⟩
  | cons t l ih =>
    intro s hd ht h0 hp hs0 hs1
    have hstep := stop_step_early t s hd ht h0 hp (hearly t (List.mem_cons_self _ _))
    have ih1 := ih (fun x hx => hearly x (List.mem_cons_of_mem _ hx))
      (set_PWM_wheel (s.plat.stop 0) (s.plat.stop 1) s) hd ht h0 hp hs0 hs1
    simp only [motion_steps, hstep]
    refine ⟨ih1.1, ih1.2.1, ?_⟩
    rw [ih1.2.2]
    show (s.wheel ++ [(s.plat.stop 0, s.plat.stop 1)]) ++ List.replicate l.length (0, 0)
      = s.wheel ++ List.replicate (l.length + 1) (0, 0)
    rw [hs0, hs1, List.append_assoc]
    rfl

/-- Once the sentinel is the active move-type, nothing changes any more. -/
theorem motion_steps_stalled (l : List Nat) : ∀ s : State, s.plat.is_done_move = false →
    s.plat.target_type < 0 ∨ 4 < s.plat.target_type → motion_steps s l = s := by
  induction l with
  | nil => intro s _ _; rfl
  | cons t l ih =>
    intro s hd ht
    simp only [motion_steps, set_wheel_body_unknown _ s hd ht]
    exact ih s hd ht

/-- On the wireless link the Command Record is never updated, so in every
state that a run of the program reaches from boot the Command Record holds the
sentinel, and the active move-type is the boot STOP or the latched sentinel,
the latter with `is_done_move` false. -/
theorem run_mode2_sentinel (es : List Env) :
    ∃ s1, run 2 (setup {}) es = some s1 ∧ s1.rx.move_type = -1 ∧
      (s1.plat.target_type = 0 ∨
        (s1.plat.target_type = -1 ∧ s1.plat.is_done_move = false)) := by
  refine run_invariant 2
    (fun s1 => s1.rx.move_type = -1 ∧
      (s1.plat.target_type = 0 ∨ (s1.plat.target_type = -1 ∧ s1.plat.is_done_move = false)))
    (fun _ _ _ h => h) ?_ es (setup {}) ⟨rfl, Or.inl rfl⟩
  intro e k s h
  obtain ⟨hrx, hplat⟩ : s.rx.move_type = -1 ∧
      (s.plat.target_type = 0 ∨ (s.plat.target_type = -1 ∧ s.plat.is_done_move = false)) := h
  by_cases hk : k = .set_wheel
  · subst hk
    refine ⟨_, rfl, ?_⟩
    show (set_wheel_body _ s).rx.move_type = -1 ∧
      ((set_wheel_body _ s).plat.target_type = 0 ∨
        ((set_wheel_body _ s).plat.target_type = -1 ∧
          (set_wheel_body _ s).plat.is_done_move = false))
    rw [(set_wheel_body_keeps _ s).1]
    refine ⟨hrx, ?_⟩
    cases hd : s.plat.is_done_move with
    | true =>
      have hl : (set_wheel_body (fun n => e.millis .set_wheel (n + 2)) s).plat.target_type
            = s.rx.move_type ∧
          (set_wheel_body (fun n => e.millis .set_wheel (n + 2)) s).plat.is_done_move
            = false := by
        unfold set_wheel_body
        rw [if_pos hd]
        exact ⟨rfl, rfl⟩
      exact Or.inr ⟨hl.1.trans hrx, hl.2⟩
    | false =>
      rcases hplat with h0 | ⟨hm, _⟩
      · exact Or.inl ((set_wheel_body_stop _ s hd h0).2.1.trans h0)
      · rw [set_wheel_body_unknown _ s hd (Or.inl (by rw [hm]; decide))]
        exact Or.inr ⟨hm, hd⟩
  · obtain ⟨s2, h1, h2, _, _⟩ := task_body_keeps_motion 2 e k s hk
    obtain ⟨s3, h3, h4, _⟩ := task_body_keeps_rx_mode2 e k s
    have h23 : s3 = s2 := Option.some.inj (h3.symm.trans h1)
    subst h23
    refine ⟨s3, h1, ?_⟩
    show s3.rx.move_type = -1 ∧
      (s3.plat.target_type = 0 ∨ (s3.plat.target_type = -1 ∧ s3.plat.is_done_move = false))
    rw [h2, h4]
    exact ⟨hrx, hplat⟩

/-- C23: when `is_done_move` is true the motion step latches `rx.move_type`
whatever its value; the Command Record at boot holds `move_type = -1`; so from
the boot state, with no task but the motion step running (the Command Record
is never updated), for every sequence of clock readings `early` up to 500 ms
followed by a reading `t` above 500 ms and by any later readings: the machine
executes the boot STOP while the readings are up to 500 (zero wheel setpoints
at each step, `is_done_move` false), sets `is_done_move` at `t`, latches
move-type -1 on the following step, and in every state after that
`is_done_move` is false, the active move-type is -1 and no wheel setpoint is
requested any more.  On the wireless link, where no task updates the Command
Record, every state that a run of the whole program reaches from boot has the
boot STOP or the sentinel as its active move-type, the sentinel with
`is_done_move` false. -/
theorem sentinel_latched_and_stalls (early : List Nat) (t : Nat)
    (hearly : ∀ x ∈ early, x ≤ 500) (ht : 500 < t) (h32 : t < 4294967296) :
    (∀ (ms : Nat → Nat) (s : State), s.plat.is_done_move = true →
      (set_wheel_body ms s).plat.target_type = s.rx.move_type) ∧
    (setup {}).rx.move_type = -1 ∧
    (∀ k, k ≤ early.length →
      (motion_steps (setup {}) (early.take k)).plat.is_done_move = false ∧
      (motion_steps (setup {}) (early.take k)).plat.target_type = 0 ∧
      (motion_steps (setup {}) (early.take k)).wheel = List.replicate k (0, 0)) ∧
    (motion_steps (setup {}) (early ++ [t])).plat.is_done_move = true ∧
    (motion_steps (setup {}) (early ++ [t])).plat.target_type = 0 ∧
    (∀ (t1 : Nat) (rest : List Nat),
      (motion_steps (setup {}) (early ++ t :: t1 :: rest)).plat.is_done_move = false ∧
      (motion_steps (setup {}) (early ++ t :: t1 :: rest)).plat.target_type = -1 ∧
      (motion_steps (setup {}) (early ++ t :: t1 :: rest)).wheel
        = List.replicate (early.length + 1) (0, 0)) ∧
    ∀ es : List Env, ∃ s1, run 2 (setup {}) es = some s1 ∧ s1.rx.move_type = -1 ∧
      (s1.plat.target_type = 0 ∨
        (s1.plat.target_type = -1 ∧ s1.plat.is_done_move = false)) := by
  have hlatch : ∀ (ms : Nat → Nat) (s : State), s.plat.is_done_move = true →
      (set_wheel_body ms s).plat.target_type = s.rx.move_type ∧
      (set_wheel_body ms s).plat.is_done_move = false ∧
      (set_wheel_body ms s).wheel = s.wheel := by
    intro ms s hd
    unfold set_wheel_body
    rw [if_pos hd]
    exact ⟨rfl, rfl, rfl⟩
  refine ⟨fun ms s hd => (hlatch ms s hd).1, rfl, ?_, ?_⟩
  · intro k hk
    obtain ⟨h1, _, h3⟩ := motion_steps_early (early.take k)
      (fun x hx => hearly x (List.mem_of_mem_take hx)) (setup {}) rfl rfl rfl rfl rfl rfl
    refine ⟨by rw [h1]; rfl, by rw [h1]; rfl, ?_⟩
    rw [h3, List.length_take, Nat.min_eq_left hk]
    rfl
  · obtain ⟨h1, h2, h3⟩ := motion_steps_early early hearly (setup {}) rfl rfl rfl rfl rfl rfl
    have hd : (motion_steps (setup {}) early).plat.is_done_move = false := by rw [h1]; rfl
    have hty : (motion_steps (setup {}) early).plat.target_type = 0 := by rw [h1]; rfl
    have h0 : (motion_steps (setup {}) early).plat.tmr 0 = 0 := by rw [h1]; rfl
    have hp : (motion_steps (setup {}) early).plat.prd 0 = 500 := by rw [h1]; rfl
    have hs0 : (motion_steps (setup {}) early).plat.stop 0 = 0 := by rw [h1]; rfl
    have hs1 : (motion_steps (setup {}) early).plat.stop 1 = 0 := by rw [h1]; rfl
    have hexit := stop_step_exit t (motion_steps (setup {}) early) hd hty h0 hp ht h32
    have hA : motion_steps (setup {}) (early ++ [t])
        = move_done (set_PWM_wheel 0 0 (motion_steps (setup {}) early)) := by
      rw [motion_steps_append]
      show set_wheel_body (fun _ => t) (motion_steps (setup {}) early) = _
      rw [hexit, hs0, hs1]
    refine ⟨by rw [hA]; rfl, by rw [hA]; exact hty, ?_, run_mode2_sentinel⟩
    intro t1 rest
    have hB : motion_steps (setup {}) (early ++ t :: t1 :: rest)
        = motion_steps (set_wheel_body (fun _ => t1)
            (move_done (set_PWM_wheel 0 0 (motion_steps (setup {}) early)))) rest := by
      rw [show early ++ t :: t1 :: rest = (early ++ [t]) ++ t1 :: rest by simp,
        motion_steps_append, hA]
      rfl
    obtain ⟨l1, l2, l3⟩ := hlatch (fun _ => t1)
      (move_done (set_PWM_wheel 0 0 (motion_steps (setup {}) early))) rfl
    have hrx : (move_done (set_PWM_wheel 0 0 (motion_steps (setup {}) early))).rx.move_type
        = -1 := by
      show (motion_steps (setup {}) early).rx.move_type = -1
      rw [h2]
      rfl
    rw [hrx] at l1
    rw [hB, motion_steps_stalled rest _ l2 (Or.inl (by rw [l1]; decide))]
    refine ⟨l2, l1, ?_⟩
    rw [l3]
    show (motion_steps (setup {}) early).wheel ++ [(0, 0)] = _
    rw [h3, List.replicate_succ']
    rfl

/-- C23 witness: motion steps at 100 and 400 ms, then at 501 ms. -/
theorem sentinel_latched_and_stalls_witness :
    ((∀ x ∈ [100, 400], x ≤ 500) ∧ 500 < 501 ∧ 501 < 4294967296) ∧
    ((∀ (ms : Nat → Nat) (s : State), s.plat.is_done_move = true →
      (set_wheel_body ms s).plat.target_type = s.rx.move_type) ∧
    (setup {}).rx.move_type = -1 ∧
    (∀ k, k ≤ [100, 400].length →
      (motion_steps (setup {}) ([100, 400].take k)).plat.is_done_move = false ∧
      (motion_steps (setup {}) ([100, 400].take k)).plat.target_type = 0 ∧
      (motion_steps (setup {}) ([100, 400].take k)).wheel = List.replicate k (0, 0)) ∧
    (motion_steps (setup {}) ([100, 400] ++ [501])).plat.is_done_move = true ∧
    (motion_steps (setup {}) ([100, 400] ++ [501])).plat.target_type = 0 ∧
    (∀ (t1 : Nat) (rest : List Nat),
      (motion_steps (setup {}) ([100, 400] ++ 501 :: t1 :: rest)).plat.is_done_move = false ∧
      (motion_steps (setup {}) ([100, 400] ++ 501 :: t1 :: rest)).plat.target_type = -1 ∧
      (motion_steps (setup {}) ([100, 400] ++ 501 :: t1 :: rest)).wheel
        = List.replicate ([100, 400].length + 1) (0, 0)) ∧
    ∀ es : List Env, ∃ s1, run 2 (setup {}) es = some s1 ∧ s1.rx.move_type = -1 ∧
      (s1.plat.target_type = 0 ∨
        (s1.plat.target_type = -1 ∧ s1.plat.is_done_move = false))) :=
  ⟨⟨by decide, by decide, by decide⟩,
    sentinel_latched_and_stalls [100, 400] 501 (by decide) (by decide) (by decide)⟩

end Robot
